import Mathlib

/-!
Verification of the NMEA GPS receiver driver (Cleanflight/INAV `gps_nmea.c`).

The file shallowly embeds the driver's code in Lean:
* `grab_fields` is the ASCII field decoder (it receives the field buffer and
  may mutate it, so it returns the value together with the updated buffer);
* `gpsNewFrameNMEA` is the byte-at-a-time sentence parser, acting on the
  parser's persistent state, the shared navigation solution and the
  statistics counters;
* `gpsReceiveData` is the per-tick receive loop wrapper;
* `gpsChangeBaud` is the baud-negotiation step of the driver state machine.

Bytes are modelled as `Nat` (inputs are below 256); the C integer widths
`uint8`/`uint16`/`uint32` appear as explicit reductions modulo `256`,
`65536` and `4294967296`.  The target platform is a 32-bit ARM
microcontroller, so `char` is unsigned and `long` is 32 bits wide.
-/

/-- Exclusive-or of two bytes, reduced to 8 bits as the C `uint8_t` parity
accumulator does. -/
def xor8 (a b : Nat) : Nat := (Nat.xor a b) % 256

/-- One iteration structure of the `grab_fields` scanning loop, with explicit
fuel (the loop provably runs at most 17 iterations, see `grab_fields`).
Arguments: fuel, buffer, `mult`, index `i`, accumulator `tmp`. -/
def grabLoop : Nat → List Nat → Nat → Nat → Nat → Nat × List Nat
  | 0, buf, _, _, tmp => (tmp, buf)
  | fuel+1, buf, mult, i, tmp =>
    if buf.getD i 0 = 0 then (tmp, buf)
    else if buf.getD i 0 = 46 ∧ mult = 0 then (tmp, buf)
    else
      let i1 := if buf.getD i 0 = 46 then i + 1 else i
      let buf1 := if buf.getD i 0 = 46 then buf.set (i + 1 + mult) 0 else buf
      let c := buf1.getD i1 0
      let tmp1 := (tmp * 10) % 4294967296
      let tmp2 := if 48 ≤ c ∧ c ≤ 57 then (tmp1 + (c - 48)) % 4294967296 else tmp1
      if 15 ≤ i1 then (0, buf1) else grabLoop fuel buf1 mult (i1 + 1) tmp2

/-- The field decoder `grab_fields(char *src, uint8_t mult)`: converts an
ASCII numeric field into a `uint32` accumulator.  On a decimal point it
skips the point and, when `mult` is nonzero, writes a terminating zero
`mult` characters later (truncating the caller's buffer); when `mult` is
zero it stops at the point.  Every scanned character multiplies the
accumulator by ten; digits are then added.  Reaching index 15 returns 0.
The index advances by at least one each iteration and the loop exits once
it reaches 15, so fuel 32 is never exhausted. -/
def grab_fields (src : List Nat) (mult : Nat) : Nat × List Nat :=
  grabLoop 32 src mult 0 0

/-- Value of a decimal digit string (most significant first). -/
def digitsVal (l : List Nat) : Nat := l.foldl (fun a c => a * 10 + (c - 48)) 0

/-- Modelled from the spec: the external degree conversion
`GPS_coord_to_degrees` (`common/gps_conversion.c`, absent from `src/`).
The spec says coordinate fields are in `ddmm.mmmm` form and are converted
to fixed-point degrees in 1e-7 degree units: the last two integer digits
are minutes, the preceding digits are degrees, up to four fractional
digits are ten-thousandths of a minute. -/
def coordPure (f : List Nat) : Nat :=
  let intPart := f.takeWhile (fun c => c != 46)
  let fracPart := ((f.dropWhile (fun c => c != 46)).drop 1).take 4
  let deg := digitsVal (intPart.take (intPart.length - 2))
  let mins := digitsVal (intPart.drop (intPart.length - 2))
  let frac := digitsVal fracPart * 10 ^ (4 - fracPart.length)
  deg * 10000000 + (mins * 1000000 + frac * 100) / 6

/-- Modelled from the spec: `GPS_coord_to_degrees` reads its argument as a
C string, i.e. up to the first zero byte of the buffer. -/
def GPS_coord_to_degrees (s : List Nat) : Nat :=
  coordPure (s.takeWhile (fun c => c != 0))

/-- Reinterpret a C `uint32` value as `int32` (assignment of the unsigned
conversion result to the signed `gps_Msg.latitude` field). -/
def toInt32 (v : Nat) : Int :=
  if v % 4294967296 < 2147483648 then ((v % 4294967296 : Nat) : Int)
  else ((v % 4294967296 : Nat) : Int) - 4294967296

/-- Wrap an integer into the `int32` range (two's complement). -/
def wrapI32 (x : Int) : Int := ((x + 2147483648) % 4294967296) - 2147483648

/-- The parser's pending-result record `gpsDataNmea_t`. -/
structure GpsDataNmea where
  fix : Bool
  latitude : Int
  longitude : Int
  numSat : Nat
  altitude : Nat
  speed : Nat
  ground_course : Nat
  hdop : Nat
deriving DecidableEq, Repr

/-- Fix type values of the shared solution record (`GPS_NO_FIX`,
`GPS_FIX_2D`, `GPS_FIX_3D`). -/
inductive GpsFixType where
  | GPS_NO_FIX
  | GPS_FIX_2D
  | GPS_FIX_3D
deriving DecidableEq, Repr

/-- Validity / heartbeat flag bits of the shared solution record. -/
structure GpsSolFlags where
  gpsHeartbeat : Bool
  validVelNE : Bool
  validVelD : Bool
  validEPE : Bool
deriving DecidableEq, Repr

/-- The shared navigation solution record `gpsSol` (externally owned;
only the fields this driver touches are modelled). -/
structure GpsSolution where
  fixType : GpsFixType
  numSat : Nat
  lat : Int
  lon : Int
  alt : Int
  hdop : Nat
  eph : Nat
  epv : Nat
  groundSpeed : Nat
  groundCourse : Nat
  flags : GpsSolFlags
deriving DecidableEq, Repr

/-- The shared statistics counters `gpsStats`. -/
structure GpsStats where
  packetCount : Nat
  errors : Nat
deriving DecidableEq, Repr

/-- The parser's persistent (C `static`) locals. -/
structure NmeaState where
  gps_Msg : GpsDataNmea
  param : Nat
  offset : Nat
  parity : Nat
  string : List Nat
  checksum_param : Bool
  gps_frame : Nat
deriving DecidableEq, Repr

/-- Everything `gpsNewFrameNMEA` reads or writes: its static locals plus
the shared solution and statistics records. -/
structure GpsEnv where
  ps : NmeaState
  sol : GpsSolution
  stats : GpsStats
deriving DecidableEq, Repr

/-- Zero-initialized statics, as at C program start. -/
def initNmeaState : NmeaState :=
  { gps_Msg := ⟨false, 0, 0, 0, 0, 0, 0, 0⟩
    param := 0
    offset := 0
    parity := 0
    string := List.replicate 16 0
    checksum_param := false
    gps_frame := 0 }

/-- Modelled from the spec: `GPS_HDOP_TO_EPH_MULTIPLIER`, the fixed
multiplier deriving the horizontal/vertical error estimates from HDOP
(declared in the external GPS headers, absent from `src/`). -/
def GPS_HDOP_TO_EPH_MULTIPLIER : Nat := 2

/-- Modelled from the spec: `gpsConstrainHDOP` clamps the stored HDOP
(external helper, absent from `src/`). -/
def gpsConstrainHDOP (v : Nat) : Nat := min v 9999

/-- Modelled from the spec: `gpsConstrainEPE` clamps the stored error
estimate (external helper, absent from `src/`). -/
def gpsConstrainEPE (v : Nat) : Nat := min v 9999

/-- The logical contents of a C string stored in a buffer: the bytes up to
the first zero. -/
def cstr (s : List Nat) : List Nat := s.takeWhile (fun c => c != 0)

/-- Frame identification at field 0: the four `strcmp` tests against
`GPGGA`/`GNGGA`/`GPRMC`/`GNRMC`, yielding `FRAME_GGA = 1`,
`FRAME_RMC = 2` or `NO_FRAME = 0`. -/
def identifyFrame (s : List Nat) : Nat :=
  if cstr s = [71, 80, 71, 71, 65] ∨ cstr s = [71, 78, 71, 71, 65] then 1
  else if cstr s = [71, 80, 82, 77, 67] ∨ cstr s = [71, 78, 82, 77, 67] then 2
  else 0

/-- GGA field dispatch (the `FRAME_GGA` switch on `param`); receives and
returns the field buffer because `grab_fields` may mutate it.  The
`uint8`/`uint16` destinations narrow the decoded `uint32` values; the
intermediate `uint32` wrap of the products is absorbed because `2^16`
divides `2^32`. -/
def ggaDispatch (p : Nat) (m : GpsDataNmea) (s : List Nat) : GpsDataNmea × List Nat :=
  if p = 2 then ({ m with latitude := toInt32 (GPS_coord_to_degrees s) }, s)
  else if p = 3 then
    (if s.getD 0 0 = 83 then { m with latitude := wrapI32 (-m.latitude) } else m, s)
  else if p = 4 then ({ m with longitude := toInt32 (GPS_coord_to_degrees s) }, s)
  else if p = 5 then
    (if s.getD 0 0 = 87 then { m with longitude := wrapI32 (-m.longitude) } else m, s)
  else if p = 6 then ({ m with fix := decide (48 < s.getD 0 0) }, s)
  else if p = 7 then
    (let r := grab_fields s 0; ({ m with numSat := r.1 % 256 }, r.2))
  else if p = 8 then
    (let r := grab_fields s 1; ({ m with hdop := (r.1 * 10) % 65536 }, r.2))
  else if p = 9 then
    (let r := grab_fields s 1; ({ m with altitude := (r.1 * 10) % 65536 }, r.2))
  else (m, s)

/-- RMC field dispatch (the `FRAME_RMC` switch on `param`).  The speed
conversion `(grab_fields(string, 1) * 5144L) / 1000L` is carried out in
32-bit unsigned arithmetic and then narrowed to the `uint16` field. -/
def rmcDispatch (p : Nat) (m : GpsDataNmea) (s : List Nat) : GpsDataNmea × List Nat :=
  if p = 7 then
    (let r := grab_fields s 1;
     ({ m with speed := ((r.1 * 5144) % 4294967296 / 1000) % 65536 }, r.2))
  else if p = 8 then
    (let r := grab_fields s 1; ({ m with ground_course := r.1 % 65536 }, r.2))
  else (m, s)

/-- Value of one checksum character per the C expression
`(c >= 'A') ? c - 'A' + 10 : c - '0'` (computed in `int`, so it may be
negative for characters below `'0'`). -/
def hexDigitVal (c : Nat) : Int := if 65 ≤ c then (c : Int) - 65 + 10 else (c : Int) - 48

/-- The `uint8` checksum assembled from the two recorded checksum
characters (C wraps the `int` expression into `uint8_t`). -/
def hexPairVal (c0 c1 : Nat) : Nat := ((16 * hexDigitVal c0 + hexDigitVal c1) % 256).toNat

/-- One invocation of `gpsNewFrameNMEA(char c)`: feeds a single byte to the
sentence parser.  Returns the `frameOK` flag together with the updated
parser state, solution and statistics. -/
def gpsNewFrameNMEA (c : Nat) (env : GpsEnv) : Bool × GpsEnv :=
  let ps := env.ps
  if c = 36 then
    (false, { env with ps := { ps with param := 0, offset := 0, parity := 0 } })
  else if c = 44 ∨ c = 42 then
    let s1 := ps.string.set ps.offset 0
    let frame := if ps.param = 0 then identifyFrame s1 else ps.gps_frame
    let md :=
      if frame = 1 then ggaDispatch ps.param ps.gps_Msg s1
      else if frame = 2 then rmcDispatch ps.param ps.gps_Msg s1
      else (ps.gps_Msg, s1)
    let ps1 := { ps with gps_Msg := md.1, string := md.2, gps_frame := frame
                         param := (ps.param + 1) % 256, offset := 0 }
    if c = 42 then (false, { env with ps := { ps1 with checksum_param := true } })
    else (false, { env with ps := { ps1 with parity := xor8 ps.parity c } })
  else if c = 13 ∨ c = 10 then
    if ps.checksum_param then
      let checksum := hexPairVal (ps.string.getD 0 0) (ps.string.getD 1 0)
      if checksum = ps.parity then
        let stats1 := { env.stats with packetCount := env.stats.packetCount + 1 }
        if ps.gps_frame = 1 then
          let m := ps.gps_Msg
          let sol1 := { env.sol with numSat := m.numSat }
          let sol2 :=
            if m.fix then
              { sol1 with fixType := GpsFixType.GPS_FIX_3D
                          lat := m.latitude
                          lon := m.longitude
                          alt := (m.altitude : Int)
                          hdop := gpsConstrainHDOP m.hdop
                          eph := gpsConstrainEPE (m.hdop * GPS_HDOP_TO_EPH_MULTIPLIER)
                          epv := gpsConstrainEPE (m.hdop * GPS_HDOP_TO_EPH_MULTIPLIER)
                          flags := { sol1.flags with validEPE := false } }
            else { sol1 with fixType := GpsFixType.GPS_NO_FIX }
          let sol3 := { sol2 with flags := { sol2.flags with validVelNE := false, validVelD := false } }
          (true, { env with ps := { ps with checksum_param := false }, sol := sol3, stats := stats1 })
        else if ps.gps_frame = 2 then
          let sol1 := { env.sol with groundSpeed := ps.gps_Msg.speed
                                     groundCourse := ps.gps_Msg.ground_course }
          (false, { env with ps := { ps with checksum_param := false }, sol := sol1, stats := stats1 })
        else
          (false, { env with ps := { ps with checksum_param := false }, stats := stats1 })
      else
        (false, { env with ps := { ps with checksum_param := false }
                           stats := { env.stats with errors := env.stats.errors + 1 } })
    else (false, { env with ps := { ps with checksum_param := false } })
  else
    if ps.offset < 15 then
      let ps1 := { ps with string := ps.string.set ps.offset c, offset := ps.offset + 1 }
      if ps.checksum_param then (false, { env with ps := ps1 })
      else (false, { env with ps := { ps1 with parity := xor8 ps.parity c } })
    else (false, env)

/-- Feed a list of bytes to the parser one at a time, collecting the
per-byte `frameOK` results. -/
def runNMEA : List Nat → GpsEnv → List Bool × GpsEnv
  | [], e => ([], e)
  | c :: cs, e =>
    let r := gpsNewFrameNMEA c e
    let rs := runNMEA cs r.2
    (r.1 :: rs.1, rs.2)

/-- The receive loop `gpsReceiveData` applied to the bytes currently
waiting on the serial port: drains them through the parser and, whenever a
frame completes, toggles the heartbeat flag and clears the velocity
validity flags.  Returns the `hasNewData` flag. -/
def gpsReceiveData : List Nat → GpsEnv → Bool × GpsEnv
  | [], e => (false, e)
  | c :: cs, e =>
    let r := gpsNewFrameNMEA c e
    let e1 :=
      if r.1 then
        { r.2 with sol := { r.2.sol with
            flags := { r.2.sol.flags with
              gpsHeartbeat := !r.2.sol.flags.gpsHeartbeat
              validVelNE := false
              validVelD := false } } }
      else r.2
    let rest := gpsReceiveData cs e1
    (r.1 || rest.1, rest.2)

/-- Driver phase values of the top-level state machine. -/
inductive GpsState_e where
  | GPS_UNKNOWN
  | GPS_INITIALIZING
  | GPS_CHANGE_BAUD
  | GPS_CHECK_VERSION
  | GPS_CONFIGURE
  | GPS_RECEIVING_DATA
deriving DecidableEq, Repr

/-- Auto-baud configuration flag (`GPS_AUTOBAUD_OFF` or on). -/
inductive GpsAutoBaud where
  | GPS_AUTOBAUD_OFF
  | GPS_AUTOBAUD_ON
deriving DecidableEq, Repr

/-- Receiver provider identity (`GPS_NMEA` or `GPS_NMEA_PSRF`). -/
inductive GpsProvider where
  | GPS_NMEA
  | GPS_NMEA_PSRF
deriving DecidableEq, Repr

/-- Transport actions a driver step can issue: a baud-rate switch (recorded
by candidate index; the external baud table lookup is abstracted to the
index) or a command-string transmission. -/
inductive TxEvent where
  | setBaud (idx : Nat)
  | sendStr (s : String)
deriving DecidableEq, Repr

/-- The portion of the driver state record `gpsState` that the baud
negotiation step reads or writes, together with the transport and clock
inputs sampled during the invocation. -/
structure GpsDriverState where
  state : GpsState_e
  lastStateSwitchMs : Nat
  autoBaudrateIndex : Nat
  baudrateIndex : Nat
  provider : GpsProvider
  autoBaud : GpsAutoBaud
  now : Nat
  txEmpty : Bool
deriving DecidableEq, Repr

def GPS_BAUDRATE_COUNT : Nat := 6

/-- The MTK baud-switch command strings `mtkInit_BaudData`. -/
def mtkInit_BaudData : List String :=
  ["$PMTK251,115200*1F\r\n", "$PMTK251,57600*2C\r\n", "$PMTK251,38400*27\r\n",
   "$PMTK251,19200*22\r\n", "$PMTK251,9600*17\r\n", "$PMTK251,4800*14\r\n"]

/-- The SiRF baud-switch command strings `srfInit_BaudData`. -/
def srfInit_BaudData : List String :=
  ["$PSRF100,1,115200,8,1,0*05\r\n", "$PSRF100,1,57600,8,1,0*36\r\n",
   "$PSRF100,1,38400,8,1,0*3D\r\n", "$PSRF100,1,19200,8,1,0*38\r\n",
   "$PSRF100,1,9600,8,1,0*0D\r\n", "$PSRF100,1,4800,8,1,0*0E\r\n"]

/-- Modelled from the spec: `gpsSetState` (external `gps_private`
helper, absent from `src/`) switches the driver phase and records the
transition timestamp. -/
def gpsSetState (s : GpsState_e) (st : GpsDriverState) : GpsDriverState :=
  { st with state := s, lastStateSwitchMs := st.now }

/-- Modelled from the spec: `gpsFinalizeChangeBaud` (external, absent from
`src/`) — "if auto-baud negotiation is disabled, immediately finalize
(hand off to whatever fixed-baud-rate follow-up the configuration owns)";
it moves the driver past the `CHANGE_BAUD` phase and issues no transport
writes itself. -/
def gpsFinalizeChangeBaud (st : GpsDriverState) : GpsDriverState × List TxEvent :=
  (gpsSetState GpsState_e.GPS_CHECK_VERSION st, [])

/-- One invocation of `gpsChangeBaud`: when auto-baud is enabled and
candidates remain, after a 200 ms dwell with an empty transmit buffer it
switches the transport baud, sends the provider's baud-switch command and
advances the candidate index; otherwise it finalizes. -/
def gpsChangeBaud (st : GpsDriverState) : GpsDriverState × List TxEvent :=
  if st.autoBaud ≠ GpsAutoBaud.GPS_AUTOBAUD_OFF ∧ st.autoBaudrateIndex < GPS_BAUDRATE_COUNT then
    if 200 ≤ st.now - st.lastStateSwitchMs ∧ st.txEmpty then
      let cmd :=
        if st.provider = GpsProvider.GPS_NMEA_PSRF then (srfInit_BaudData.getD st.baudrateIndex "")
        else (mtkInit_BaudData.getD st.baudrateIndex "")
      (gpsSetState GpsState_e.GPS_CHANGE_BAUD { st with autoBaudrateIndex := st.autoBaudrateIndex + 1 },
       [TxEvent.setBaud st.autoBaudrateIndex, TxEvent.sendStr cmd])
    else (st, [])
  else gpsFinalizeChangeBaud st

/-- A byte that falls into the parser's default branch: none of `$`, `,`,
`*`, CR, LF. -/
def PlainChar (c : Nat) : Prop := c ≠ 36 ∧ c ≠ 44 ∧ c ≠ 42 ∧ c ≠ 13 ∧ c ≠ 10

instance (c : Nat) : Decidable (PlainChar c) := by unfold PlainChar; infer_instance

/-- A well-formed sentence field: plain nonzero bytes, and short enough
that every byte is recorded in the 16-byte buffer (so that the parity the
parser accumulates is the exclusive-or of all sentence bytes). -/
def FieldOK (f : List Nat) : Prop := (∀ c ∈ f, PlainChar c ∧ c ≠ 0) ∧ f.length ≤ 15

instance (f : List Nat) : Decidable (FieldOK f) := by unfold FieldOK; infer_instance

/-- An uppercase-hex checksum character (`0`-`9` or `A`-`F`). -/
def HexChar (c : Nat) : Prop := (48 ≤ c ∧ c ≤ 57) ∨ (65 ≤ c ∧ c ≤ 70)

instance (c : Nat) : Decidable (HexChar c) := by unfold HexChar; infer_instance

/-- The comma-separated field region of a sentence (bytes between `$` and
`*`). -/
def joinFields : List (List Nat) → List Nat
  | [] => []
  | [f] => f
  | f :: g :: fs => f ++ 44 :: joinFields (g :: fs)

/-- Full wire form of a sentence: `$`, the fields separated by commas,
`*`, two checksum characters, CR, LF. -/
def sentenceBytes (fs : List (List Nat)) (c1 c2 : Nat) : List Nat :=
  36 :: joinFields fs ++ [42, c1, c2, 13, 10]

/-- Exclusive-or of all bytes between `$` and `*` of a sentence. -/
def parityOf (fs : List (List Nat)) : Nat := (joinFields fs).foldl xor8 0

/-- Decoded value of a field's content, as `grab_fields` computes it on a
buffer holding exactly this field. -/
def grabPure (f : List Nat) (mult : Nat) : Nat := (grab_fields (f ++ [0]) mult).1

/-- Frame identification as a function of the field-0 content. -/
def identifyFramePure (f : List Nat) : Nat :=
  if f = [71, 80, 71, 71, 65] ∨ f = [71, 78, 71, 71, 65] then 1
  else if f = [71, 80, 82, 77, 67] ∨ f = [71, 78, 82, 77, 67] then 2
  else 0

/-- GGA field dispatch expressed on the field content. -/
def ggaDispatchPure (p : Nat) (m : GpsDataNmea) (f : List Nat) : GpsDataNmea :=
  if p = 2 then { m with latitude := toInt32 (coordPure f) }
  else if p = 3 then
    (if f.headD 0 = 83 then { m with latitude := wrapI32 (-m.latitude) } else m)
  else if p = 4 then { m with longitude := toInt32 (coordPure f) }
  else if p = 5 then
    (if f.headD 0 = 87 then { m with longitude := wrapI32 (-m.longitude) } else m)
  else if p = 6 then { m with fix := decide (48 < f.headD 0) }
  else if p = 7 then { m with numSat := grabPure f 0 % 256 }
  else if p = 8 then { m with hdop := (grabPure f 1 * 10) % 65536 }
  else if p = 9 then { m with altitude := (grabPure f 1 * 10) % 65536 }
  else m

/-- RMC field dispatch expressed on the field content. -/
def rmcDispatchPure (p : Nat) (m : GpsDataNmea) (f : List Nat) : GpsDataNmea :=
  if p = 7 then { m with speed := ((grabPure f 1 * 5144) % 4294967296 / 1000) % 65536 }
  else if p = 8 then { m with ground_course := grabPure f 1 % 65536 }
  else m

/-- Frame-directed field dispatch expressed on the field content. -/
def dispatchMsgPure (frame p : Nat) (m : GpsDataNmea) (f : List Nat) : GpsDataNmea :=
  if frame = 1 then ggaDispatchPure p m f
  else if frame = 2 then rmcDispatchPure p m f
  else m

/-- Pure mirror of the parser's field-by-field evolution of
(`param`, `gps_frame`, `gps_Msg`) over a sentence's fields. -/
def foldFields : List (List Nat) → Nat → Nat → GpsDataNmea → Nat × Nat × GpsDataNmea
  | [], p, fr, m => (p, fr, m)
  | f :: fs, p, fr, m =>
    let fr1 := if p = 0 then identifyFramePure f else fr
    foldFields fs ((p + 1) % 256) fr1 (dispatchMsgPure fr1 p m f)

/-- The commit the parser performs on a checksum match, as a function of
the recognized frame and the final pending record. -/
def commitSol (frame : Nat) (m : GpsDataNmea) (sol : GpsSolution) : GpsSolution :=
  if frame = 1 then
    let sol1 := { sol with numSat := m.numSat }
    let sol2 :=
      if m.fix then
        { sol1 with fixType := GpsFixType.GPS_FIX_3D
                    lat := m.latitude
                    lon := m.longitude
                    alt := (m.altitude : Int)
                    hdop := gpsConstrainHDOP m.hdop
                    eph := gpsConstrainEPE (m.hdop * GPS_HDOP_TO_EPH_MULTIPLIER)
                    epv := gpsConstrainEPE (m.hdop * GPS_HDOP_TO_EPH_MULTIPLIER)
                    flags := { sol1.flags with validEPE := false } }
      else { sol1 with fixType := GpsFixType.GPS_NO_FIX }
    { sol2 with flags := { sol2.flags with validVelNE := false, validVelD := false } }
  else if frame = 2 then
    { sol with groundSpeed := m.speed, groundCourse := m.ground_course }
  else sol

/-- Sequential writes of a byte list into a buffer starting at an offset
(the parser's accumulation of one field). -/
def writeAt : List Nat → Nat → List Nat → List Nat
  | s, _, [] => s
  | s, o, c :: cs => writeAt (s.set o c) (o + 1) cs

/-- Replacement map for the amended C5 claim: a character that is neither a
digit, nor a decimal point, nor the terminator is replaced by the digit
zero (character 48). -/
def normNonDigit (c : Nat) : Nat :=
  if c = 46 ∨ (48 ≤ c ∧ c ≤ 57) ∨ c = 0 then c else 48

/-- Byte list of an ASCII string. -/
def strBytes (s : String) : List Nat := s.toList.map Char.toNat

/-- The four recognized talker+type identifiers. -/
def gpggaId : List Nat := [71, 80, 71, 71, 65]

def gnggaId : List Nat := [71, 78, 71, 71, 65]

def gprmcId : List Nat := [71, 80, 82, 77, 67]

def gnrmcId : List Nat := [71, 78, 82, 77, 67]

/-- A concrete environment: fresh parser statics, a solution record holding
distinguishable prior values, zeroed statistics. -/
def e0gps : GpsEnv :=
  ⟨initNmeaState,
   ⟨GpsFixType.GPS_NO_FIX, 0, 111, 222, 333, 4, 5, 6, 7, 8, ⟨false, true, true, true⟩⟩,
   ⟨0, 0⟩⟩

/-- Fields of a checksum-valid GGA sentence whose fix indicator is 0. -/
def ggaNoFixFields : List (List Nat) :=
  [gpggaId, [], [49], [78], [49], [69], [48]]

/-- The sentence `$GPGGA,,1,N,1,E,0*6D` with CR LF; `6D` is the correct
checksum of its body. -/
def ggaNoFixBytes : List Nat := sentenceBytes ggaNoFixFields 54 68

/-- Fields of a checksum-valid RMC sentence with speed field `70000`. -/
def rmcBigFields : List (List Nat) :=
  [gprmcId, [], [], [], [], [], [], [55, 48, 48, 48, 48], []]

/-- The sentence `$GPRMC,,,,,,,70000,*7C` with CR LF. -/
def rmcBigBytes : List Nat := sentenceBytes rmcBigFields 55 67

/-- A minimal sentence with a single unrecognized field `X` and its correct
checksum `58`. -/
def tinyValidBytes : List Nat := sentenceBytes [[88]] 53 56

/-- A truncated sentence prefix that was cut just after the checksum
marker: `$A*`. -/
def truncatedStarPrefix : List Nat := [36, 65, 42]

/-- The minimal fix-data sentence `$GPGGA*56` with CR LF (a GGA sentence
with no data fields and a correct checksum). -/
def minimalGgaBytes : List Nat := sentenceBytes [gpggaId] 53 54

theorem getD_set_ne (l : List Nat) {i j : Nat} (a d : Nat) (h : i ≠ j) :
    (l.set i a).getD j d = l.getD j d := by
  simp [List.getD_eq_getD_get?, List.get?_eq_getElem?, List.getElem?_set_ne h]

theorem getD_field_lt {f : List Nat} {i : Nat} (j : List Nat) (h : i < f.length) :
    (f ++ 0 :: j).getD i 0 = f.getD i 0 :=
  List.getD_append _ _ _ _ h

theorem getD_field_eq (f j : List Nat) : (f ++ 0 :: j).getD f.length 0 = 0 := by
  rw [List.getD_append_right _ _ _ _ le_rfl]
  simp

theorem getD_field_zero (f j : List Nat) : (f ++ 0 :: j).getD 0 0 = f.headD 0 := by
  cases f <;> simp

theorem takeWhile_field (f j : List Nat) (hf : 0 ∉ f) :
    (f ++ 0 :: j).takeWhile (fun c => c != 0) = f := by
  induction f with
  | nil => simp
  | cons a t ih =>
    have ha : a ≠ 0 := fun h => hf (h ▸ List.mem_cons_self a t)
    have ht : 0 ∉ t := fun h => hf (List.mem_cons_of_mem a h)
    simp [List.takeWhile_cons, ha, ih ht]

theorem grabLoop_stop {buf : List Nat} {i : Nat} (fuel mult tmp : Nat)
    (h : buf.getD i 0 = 0) : grabLoop fuel buf mult i tmp = (tmp, buf) := by
  cases fuel with
  | zero => rfl
  | succ n => simp only [grabLoop]; rw [if_pos h]

theorem grabLoop_length (fuel : Nat) :
    ∀ (buf : List Nat) (mult i tmp : Nat),
      (grabLoop fuel buf mult i tmp).2.length = buf.length := by
  induction fuel with
  | zero => intro buf mult i tmp; rfl
  | succ n ih =>
    intro buf mult i tmp
    simp only [grabLoop]
    split
    · rfl
    split
    · rfl
    split
    · split
      · simp [List.length_set]
      · rw [ih]; simp [List.length_set]
    · split
      · rfl
      · rw [ih]

theorem grab_fields_length (src : List Nat) (mult : Nat) :
    (grab_fields src mult).2.length = src.length :=
  grabLoop_length 32 src mult 0 0

theorem getD_mem_of_lt {l : List Nat} {i : Nat} (h : i < l.length) : l.getD i 0 ∈ l := by
  rw [List.getD_eq_getElem l 0 h]
  exact List.getElem_mem h

theorem set_zero_getD (l : List Nat) : (l.set 0 0).getD 0 0 = 0 := by
  cases l <;> simp


theorem getD_cons_succ (a : Nat) (l : List Nat) (n d : Nat) :
    (a :: l).getD (n + 1) d = l.getD n d := rfl

theorem grabLoop_junk (fuel : Nat) :
    ∀ (mult : Nat) (f j1 j2 : List Nat) (i tmp : Nat),
      mult ≤ 1 → 0 ∉ f → i ≤ f.length →
      (grabLoop fuel (f ++ 0 :: j1) mult i tmp).1 =
        (grabLoop fuel (f ++ 0 :: j2) mult i tmp).1 := by
  induction fuel with
  | zero => intro mult f j1 j2 i tmp _ _ _; rfl
  | succ n ih =>
    intro mult f j1 j2 i tmp hm hf hi
    rcases Nat.lt_or_ge i f.length with hlt | hge
    · -- reading inside the field: both buffers yield the field byte
      have hr1 : (f ++ 0 :: j1).getD i 0 = f.getD i 0 := getD_field_lt _ hlt
      have hr2 : (f ++ 0 :: j2).getD i 0 = f.getD i 0 := getD_field_lt _ hlt
      have hne : f.getD i 0 ≠ 0 := fun h0 => hf (h0 ▸ getD_mem_of_lt hlt)
      by_cases hd : f.getD i 0 = 46
      · rcases (by omega : mult = 0 ∨ mult = 1) with hm0 | hm1
        · subst hm0
          simp only [grabLoop, hr1, hr2]
          rw [if_neg hne, if_neg hne, if_pos (⟨hd, trivial⟩ : _ ∧ True),
              if_pos (⟨hd, trivial⟩ : _ ∧ True)]
        · subst hm1
          simp only [grabLoop, hr1, hr2]
          rw [if_neg hne, if_neg hne,
              if_neg (show ¬(f.getD i 0 = 46 ∧ 1 = 0) by simp),
              if_neg (show ¬(f.getD i 0 = 46 ∧ 1 = 0) by simp)]
          simp only [if_pos hd]
          -- the byte read after the dot is the same in both buffers
          have hsame : ((f ++ 0 :: j1).set (i + 1 + 1) 0).getD (i + 1) 0 =
              ((f ++ 0 :: j2).set (i + 1 + 1) 0).getD (i + 1) 0 := by
            rw [getD_set_ne _ _ _ (by omega), getD_set_ne _ _ _ (by omega)]
            rcases Nat.lt_or_ge (i + 1) f.length with hlt1 | hge1
            · rw [getD_field_lt _ hlt1, getD_field_lt _ hlt1]
            · have he1 : i + 1 = f.length := by omega
              rw [he1, getD_field_eq, getD_field_eq]
          rw [hsame]
          by_cases h15 : 15 ≤ i + 1
          · rw [if_pos h15, if_pos h15]
          rw [if_neg h15, if_neg h15]
          -- recursive position is i + 2; case on where the truncating write landed
          rcases (by omega : i + 1 + 1 < f.length ∨ i + 1 + 1 = f.length ∨
              i + 1 + 1 = f.length + 1) with hw | hw | hw
          · -- write inside the field: the field shortens, the junk grows
            have hshape : ∀ j : List Nat, (f ++ 0 :: j).set (i + 1 + 1) 0 =
                f.take (i + 1 + 1) ++ 0 :: (f.drop (i + 1 + 1 + 1) ++ 0 :: j) := by
              intro j
              rw [List.set_append, if_pos hw, List.set_eq_take_cons_drop 0 hw,
                  List.append_assoc, List.cons_append]
            rw [hshape, hshape]
            have hlen : i + 1 + 1 ≤ (f.take (i + 1 + 1)).length := by
              rw [List.length_take]
              omega
            exact ih 1 _ _ _ _ _ (le_refl 1) (fun h => hf (List.mem_of_mem_take h)) hlen
          · -- write lands exactly on the terminator: buffer unchanged
            have hshape : ∀ j : List Nat, (f ++ 0 :: j).set (i + 1 + 1) 0 = f ++ 0 :: j := by
              intro j
              rw [List.set_append, if_neg (by omega), hw, Nat.sub_self, List.set_cons_zero]
            rw [hshape, hshape]
            exact ih 1 _ _ _ _ _ (le_refl 1) hf (by omega)
          · -- write lands just past the terminator: both runs read a zero and stop
            have hshape : ∀ j : List Nat, (f ++ 0 :: j).set (i + 1 + 1) 0 =
                f ++ 0 :: j.set 0 0 := by
              intro j
              rw [List.set_append, if_neg (by omega), hw,
                  (by omega : f.length + 1 - f.length = 1), List.set_cons_succ]
            rw [hshape, hshape]
            have hz : ∀ j : List Nat, (f ++ 0 :: j.set 0 0).getD (i + 1 + 1) 0 = 0 := by
              intro j
              rw [hw, List.getD_append_right _ _ _ _ (by omega),
                  (by omega : f.length + 1 - f.length = 1), getD_cons_succ]
              exact set_zero_getD j
            rw [grabLoop_stop _ _ _ (hz j1), grabLoop_stop _ _ _ (hz j2)]
      · -- ordinary character: index advances by one, buffers unchanged
        simp only [grabLoop, hr1, hr2]
        rw [if_neg hne, if_neg hne,
            if_neg (show ¬(f.getD i 0 = 46 ∧ mult = 0) from fun h => hd h.1),
            if_neg (show ¬(f.getD i 0 = 46 ∧ mult = 0) from fun h => hd h.1)]
        simp only [if_neg hd]
        by_cases h15 : 15 ≤ i
        · rw [if_pos h15, if_pos h15]
        rw [if_neg h15, if_neg h15, hr1, hr2]
        exact ih mult _ _ _ _ _ hm hf (by omega)
    · -- reading the terminator: both runs stop
      have he : i = f.length := le_antisymm hi hge
      subst he
      rw [grabLoop_stop _ _ _ (getD_field_eq f j1), grabLoop_stop _ _ _ (getD_field_eq f j2)]

theorem grab_field_val (f j : List Nat) (mult : Nat) (hm : mult ≤ 1) (hf : 0 ∉ f) :
    (grab_fields (f ++ 0 :: j) mult).1 = grabPure f mult := by
  unfold grab_fields grabPure
  rw [(rfl : f ++ [0] = f ++ 0 :: ([] : List Nat))]
  exact grabLoop_junk 32 mult f j [] 0 0 hm hf (Nat.zero_le _)

theorem coord_field (f j : List Nat) (hf : 0 ∉ f) :
    GPS_coord_to_degrees (f ++ 0 :: j) = coordPure f := by
  unfold GPS_coord_to_degrees
  rw [takeWhile_field f j hf]

theorem identifyFrame_field (f j : List Nat) (hf : 0 ∉ f) :
    identifyFrame (f ++ 0 :: j) = identifyFramePure f := by
  unfold identifyFrame identifyFramePure cstr
  rw [takeWhile_field f j hf]

theorem ggaDispatch_snd_length (p : Nat) (m : GpsDataNmea) (s : List Nat) :
    (ggaDispatch p m s).2.length = s.length := by
  unfold ggaDispatch
  split_ifs <;> simp [grab_fields_length]

theorem rmcDispatch_snd_length (p : Nat) (m : GpsDataNmea) (s : List Nat) :
    (rmcDispatch p m s).2.length = s.length := by
  unfold rmcDispatch
  split_ifs <;> simp [grab_fields_length]

theorem ggaDispatch_fst (p : Nat) (m : GpsDataNmea) (f j : List Nat) (hf : 0 ∉ f) :
    (ggaDispatch p m (f ++ 0 :: j)).1 = ggaDispatchPure p m f := by
  simp only [ggaDispatch, ggaDispatchPure]
  rw [coord_field f j hf, getD_field_zero, grab_field_val f j 0 (by omega) hf,
      grab_field_val f j 1 (by omega) hf]
  split_ifs <;> rfl

theorem rmcDispatch_fst (p : Nat) (m : GpsDataNmea) (f j : List Nat) (hf : 0 ∉ f) :
    (rmcDispatch p m (f ++ 0 :: j)).1 = rmcDispatchPure p m f := by
  simp only [rmcDispatch, rmcDispatchPure]
  rw [grab_field_val f j 1 (by omega) hf]
  split_ifs <;> rfl

theorem runNMEA_append (a b : List Nat) (e : GpsEnv) :
    runNMEA (a ++ b) e =
      ((runNMEA a e).1 ++ (runNMEA b (runNMEA a e).2).1, (runNMEA b (runNMEA a e).2).2) := by
  induction a generalizing e with
  | nil => simp [runNMEA]
  | cons c cs ih => simp [runNMEA, ih]

theorem runNMEA_chunk (f : List Nat) :
    ∀ (m : GpsDataNmea) (p o q : Nat) (s : List Nat) (fr : Nat)
      (sol : GpsSolution) (stats : GpsStats),
      (∀ c ∈ f, PlainChar c) → o + f.length ≤ 15 →
      runNMEA f ⟨⟨m, p, o, q, s, false, fr⟩, sol, stats⟩ =
        (List.replicate f.length false,
         ⟨⟨m, p, o + f.length, f.foldl xor8 q, writeAt s o f, false, fr⟩, sol, stats⟩) := by
  induction f with
  | nil =>
    intro m p o q s fr sol stats _ _
    simp [runNMEA, writeAt]
  | cons c cs ih =>
    intro m p o q s fr sol stats hok hlen
    obtain ⟨h36, h44, h42, h13, h10⟩ := hok c (List.mem_cons_self c cs)
    have hlt : o < 15 := by
      have := hlen
      simp only [List.length_cons] at this
      omega
    have hstep : gpsNewFrameNMEA c ⟨⟨m, p, o, q, s, false, fr⟩, sol, stats⟩ =
        (false, ⟨⟨m, p, o + 1, xor8 q c, s.set o c, false, fr⟩, sol, stats⟩) := by
      simp only [gpsNewFrameNMEA]
      rw [if_neg h36, if_neg (by simp [h44, h42]), if_neg (by simp [h13, h10]),
          if_pos hlt]
      simp
    have hrest := ih m p (o + 1) (xor8 q c) (s.set o c) fr sol stats
      (fun d hd => hok d (List.mem_cons_of_mem c hd))
      (by simp only [List.length_cons] at hlen; omega)
    simp only [runNMEA, hstep, hrest]
    have hadd : o + 1 + cs.length = o + (c :: cs).length := by
      simp only [List.length_cons]
      omega
    simp [List.replicate_succ, writeAt, hadd]

theorem runNMEA_chunk_ck (f : List Nat) :
    ∀ (m : GpsDataNmea) (p o q : Nat) (s : List Nat) (fr : Nat)
      (sol : GpsSolution) (stats : GpsStats),
      (∀ c ∈ f, PlainChar c) → o + f.length ≤ 15 →
      runNMEA f ⟨⟨m, p, o, q, s, true, fr⟩, sol, stats⟩ =
        (List.replicate f.length false,
         ⟨⟨m, p, o + f.length, q, writeAt s o f, true, fr⟩, sol, stats⟩) := by
  induction f with
  | nil =>
    intro m p o q s fr sol stats _ _
    simp [runNMEA, writeAt]
  | cons c cs ih =>
    intro m p o q s fr sol stats hok hlen
    obtain ⟨h36, h44, h42, h13, h10⟩ := hok c (List.mem_cons_self c cs)
    have hlt : o < 15 := by
      simp only [List.length_cons] at hlen
      omega
    have hstep : gpsNewFrameNMEA c ⟨⟨m, p, o, q, s, true, fr⟩, sol, stats⟩ =
        (false, ⟨⟨m, p, o + 1, q, s.set o c, true, fr⟩, sol, stats⟩) := by
      simp only [gpsNewFrameNMEA]
      rw [if_neg h36, if_neg (by simp [h44, h42]), if_neg (by simp [h13, h10]),
          if_pos hlt]
      simp
    have hrest := ih m p (o + 1) q (s.set o c) fr sol stats
      (fun d hd => hok d (List.mem_cons_of_mem c hd))
      (by simp only [List.length_cons] at hlen; omega)
    simp only [runNMEA, hstep, hrest]
    have hadd : o + 1 + cs.length = o + (c :: cs).length := by
      simp only [List.length_cons]
      omega
    simp [List.replicate_succ, writeAt, hadd]

theorem writeAt_cons_shift (f : List Nat) :
    ∀ (x : Nat) (s : List Nat) (o : Nat), writeAt (x :: s) (o + 1) f = x :: writeAt s o f := by
  induction f with
  | nil => intro x s o; rfl
  | cons c cs ih =>
    intro x s o
    simp only [writeAt, List.set_cons_succ]
    exact ih x (s.set o c) (o + 1)

theorem writeAt_zero (f : List Nat) :
    ∀ s : List Nat, f.length ≤ s.length → writeAt s 0 f = f ++ s.drop f.length := by
  induction f with
  | nil => intro s _; simp [writeAt]
  | cons c cs ih =>
    intro s hlen
    cases s with
    | nil => simp at hlen
    | cons x s' =>
      simp only [writeAt, List.set_cons_zero]
      rw [show (0 + 1 : Nat) = 0 + 1 from rfl, writeAt_cons_shift]
      rw [ih s' (by simp only [List.length_cons] at hlen; omega)]
      simp

theorem string_after_field (f s : List Nat) (h : f.length < s.length) :
    (writeAt s 0 f).set f.length 0 = f ++ 0 :: s.drop (f.length + 1) := by
  rw [writeAt_zero f s h.le, List.set_append, if_neg (lt_irrefl f.length), Nat.sub_self,
      List.drop_eq_getElem_cons h, List.set_cons_zero]

theorem runNMEA_field_comma (f : List Nat) (m : GpsDataNmea) (p q : Nat) (s : List Nat)
    (fr : Nat) (sol : GpsSolution) (stats : GpsStats)
    (hok : FieldOK f) (hs : s.length = 16) :
    ∃ s2 : List Nat, s2.length = 16 ∧
      runNMEA (f ++ [44]) ⟨⟨m, p, 0, q, s, false, fr⟩, sol, stats⟩ =
        (List.replicate (f.length + 1) false,
         ⟨⟨dispatchMsgPure (if p = 0 then identifyFramePure f else fr) p m f,
           (p + 1) % 256, 0, xor8 (f.foldl xor8 q) 44, s2, false,
           if p = 0 then identifyFramePure f else fr⟩, sol, stats⟩) := by
  obtain ⟨hplain, hflen⟩ := hok
  have hf0 : 0 ∉ f := fun h0 => ((hplain 0 h0).2 rfl)
  have hchunk := runNMEA_chunk f m p 0 q s fr sol stats (fun c hc => (hplain c hc).1)
    (by omega)
  have hshape : (writeAt s 0 f).set f.length 0 = f ++ 0 :: s.drop (f.length + 1) :=
    string_after_field f s (by omega)
  have hstep : gpsNewFrameNMEA 44
      ⟨⟨m, p, 0 + f.length, f.foldl xor8 q, writeAt s 0 f, false, fr⟩, sol, stats⟩ =
      (false,
       ⟨⟨dispatchMsgPure (if p = 0 then identifyFramePure f else fr) p m f,
         (p + 1) % 256, 0, xor8 (f.foldl xor8 q) 44,
         (if (if p = 0 then identifyFramePure f else fr) = 1 then
            ggaDispatch p m (f ++ 0 :: s.drop (f.length + 1))
          else if (if p = 0 then identifyFramePure f else fr) = 2 then
            rmcDispatch p m (f ++ 0 :: s.drop (f.length + 1))
          else (m, f ++ 0 :: s.drop (f.length + 1))).2, false,
         if p = 0 then identifyFramePure f else fr⟩, sol, stats⟩) := by
    simp only [gpsNewFrameNMEA]
    rw [if_neg (by decide : ¬(44 : Nat) = 36)]
    rw [if_pos (by simp : True ∨ (44 : Nat) = 42)]
    rw [if_neg (by decide : ¬(44 : Nat) = 42)]
    simp only [Nat.zero_add, hshape, identifyFrame_field f _ hf0]
    by_cases h1 : (if p = 0 then identifyFramePure f else fr) = 1
    · simp [dispatchMsgPure, h1, ggaDispatch_fst p m f _ hf0]
    · by_cases h2 : (if p = 0 then identifyFramePure f else fr) = 2
      · simp [dispatchMsgPure, h1, h2, rmcDispatch_fst p m f _ hf0]
      · simp [dispatchMsgPure, h1, h2]
  refine ⟨(if (if p = 0 then identifyFramePure f else fr) = 1 then
      ggaDispatch p m (f ++ 0 :: s.drop (f.length + 1))
    else if (if p = 0 then identifyFramePure f else fr) = 2 then
      rmcDispatch p m (f ++ 0 :: s.drop (f.length + 1))
    else (m, f ++ 0 :: s.drop (f.length + 1))).2, ?_, ?_⟩
  · split_ifs <;>
      simp [ggaDispatch_snd_length, rmcDispatch_snd_length, List.length_drop, hs] <;> omega
  · rw [runNMEA_append, hchunk]
    simp only [runNMEA, hstep]
    simp [List.replicate_succ']

theorem runNMEA_field_star (f : List Nat) (m : GpsDataNmea) (p q : Nat) (s : List Nat)
    (fr : Nat) (sol : GpsSolution) (stats : GpsStats)
    (hok : FieldOK f) (hs : s.length = 16) :
    ∃ s2 : List Nat, s2.length = 16 ∧
      runNMEA (f ++ [42]) ⟨⟨m, p, 0, q, s, false, fr⟩, sol, stats⟩ =
        (List.replicate (f.length + 1) false,
         ⟨⟨dispatchMsgPure (if p = 0 then identifyFramePure f else fr) p m f,
           (p + 1) % 256, 0, f.foldl xor8 q, s2, true,
           if p = 0 then identifyFramePure f else fr⟩, sol, stats⟩) := by
  obtain ⟨hplain, hflen⟩ := hok
  have hf0 : 0 ∉ f := fun h0 => ((hplain 0 h0).2 rfl)
  have hchunk := runNMEA_chunk f m p 0 q s fr sol stats (fun c hc => (hplain c hc).1)
    (by omega)
  have hshape : (writeAt s 0 f).set f.length 0 = f ++ 0 :: s.drop (f.length + 1) :=
    string_after_field f s (by omega)
  have hstep : gpsNewFrameNMEA 42
      ⟨⟨m, p, 0 + f.length, f.foldl xor8 q, writeAt s 0 f, false, fr⟩, sol, stats⟩ =
      (false,
       ⟨⟨dispatchMsgPure (if p = 0 then identifyFramePure f else fr) p m f,
         (p + 1) % 256, 0, f.foldl xor8 q,
         (if (if p = 0 then identifyFramePure f else fr) = 1 then
            ggaDispatch p m (f ++ 0 :: s.drop (f.length + 1))
          else if (if p = 0 then identifyFramePure f else fr) = 2 then
            rmcDispatch p m (f ++ 0 :: s.drop (f.length + 1))
          else (m, f ++ 0 :: s.drop (f.length + 1))).2, true,
         if p = 0 then identifyFramePure f else fr⟩, sol, stats⟩) := by
    simp only [gpsNewFrameNMEA]
    rw [if_neg (by decide : ¬(42 : Nat) = 36)]
    rw [if_pos (by simp : (42 : Nat) = 44 ∨ True)]
    rw [if_pos (by trivial : True)]
    simp only [Nat.zero_add, hshape, identifyFrame_field f _ hf0]
    by_cases h1 : (if p = 0 then identifyFramePure f else fr) = 1
    · simp [dispatchMsgPure, h1, ggaDispatch_fst p m f _ hf0]
    · by_cases h2 : (if p = 0 then identifyFramePure f else fr) = 2
      · simp [dispatchMsgPure, h1, h2, rmcDispatch_fst p m f _ hf0]
      · simp [dispatchMsgPure, h1, h2]
  refine ⟨(if (if p = 0 then identifyFramePure f else fr) = 1 then
      ggaDispatch p m (f ++ 0 :: s.drop (f.length + 1))
    else if (if p = 0 then identifyFramePure f else fr) = 2 then
      rmcDispatch p m (f ++ 0 :: s.drop (f.length + 1))
    else (m, f ++ 0 :: s.drop (f.length + 1))).2, ?_, ?_⟩
  · split_ifs <;>
      simp [ggaDispatch_snd_length, rmcDispatch_snd_length, List.length_drop, hs] <;> omega
  · rw [runNMEA_append, hchunk]
    simp only [runNMEA, hstep]
    simp [List.replicate_succ']

theorem runNMEA_tail (c1 c2 : Nat) (m : GpsDataNmea) (p q : Nat) (s : List Nat) (fr : Nat)
    (sol : GpsSolution) (stats : GpsStats)
    (h1 : PlainChar c1) (h2 : PlainChar c2) (hs : s.length = 16) :
    runNMEA [c1, c2, 13, 10] ⟨⟨m, p, 0, q, s, true, fr⟩, sol, stats⟩ =
      ([false, false, decide (hexPairVal c1 c2 = q ∧ fr = 1), false],
       ⟨⟨m, p, 2, q, c1 :: c2 :: s.drop 2, false, fr⟩,
        (if hexPairVal c1 c2 = q then commitSol fr m sol else sol),
        (if hexPairVal c1 c2 = q then { stats with packetCount := stats.packetCount + 1 }
         else { stats with errors := stats.errors + 1 })⟩) := by
  have hchunk := runNMEA_chunk_ck [c1, c2] m p 0 q s fr sol stats
    (by intro c hc
        simp only [List.mem_cons, List.not_mem_nil, or_false] at hc
        rcases hc with rfl | rfl
        · exact h1
        · exact h2)
    (by simp)
  have hw : writeAt s 0 [c1, c2] = c1 :: c2 :: s.drop 2 := by
    rw [writeAt_zero [c1, c2] s (by simp [hs])]
    rfl
  rw [hw] at hchunk
  have hcr : gpsNewFrameNMEA 13 ⟨⟨m, p, 0 + 2, q, c1 :: c2 :: s.drop 2, true, fr⟩, sol, stats⟩ =
      (decide (hexPairVal c1 c2 = q ∧ fr = 1),
       ⟨⟨m, p, 0 + 2, q, c1 :: c2 :: s.drop 2, false, fr⟩,
        (if hexPairVal c1 c2 = q then commitSol fr m sol else sol),
        (if hexPairVal c1 c2 = q then { stats with packetCount := stats.packetCount + 1 }
         else { stats with errors := stats.errors + 1 })⟩) := by
    simp only [gpsNewFrameNMEA]
    rw [if_neg (by decide : ¬(13 : Nat) = 36)]
    rw [if_neg (by decide : ¬((13 : Nat) = 44 ∨ (13 : Nat) = 42))]
    rw [if_pos (by simp : True ∨ (13 : Nat) = 10)]
    by_cases hm : hexPairVal c1 c2 = q
    · simp only [commitSol]
      by_cases hf1 : fr = 1
      · simp [hm, hf1]
      · by_cases hf2 : fr = 2
        · simp [hm, hf1, hf2]
        · simp [hm, hf1, hf2]
    · simp [hm]
  have hlf : ∀ (solx : GpsSolution) (statsx : GpsStats),
      gpsNewFrameNMEA 10 ⟨⟨m, p, 0 + 2, q, c1 :: c2 :: s.drop 2, false, fr⟩, solx, statsx⟩ =
      (false, ⟨⟨m, p, 0 + 2, q, c1 :: c2 :: s.drop 2, false, fr⟩, solx, statsx⟩) := by
    intro solx statsx
    simp only [gpsNewFrameNMEA]
    rw [if_neg (by decide : ¬(10 : Nat) = 36)]
    rw [if_neg (by decide : ¬((10 : Nat) = 44 ∨ (10 : Nat) = 42))]
    rw [if_pos (by simp : (10 : Nat) = 13 ∨ True)]
    simp
  show runNMEA ([c1, c2] ++ [13, 10]) ⟨⟨m, p, 0, q, s, true, fr⟩, sol, stats⟩ = _
  rw [runNMEA_append, hchunk]
  simp only [show ([c1, c2] : List Nat).length = 2 from rfl]
  simp only [runNMEA, hcr, hlf]
  rfl

theorem replicate_false_shift (n : Nat) (l : List Bool) :
    List.replicate (n + 1) false ++ l = List.replicate n false ++ false :: l := by
  rw [List.replicate_succ', List.append_assoc]
  rfl

theorem replicate_false_assemble (n k : Nat) (l : List Bool) :
    List.replicate (n + 1 + k) false ++ l =
      List.replicate n false ++ false :: (List.replicate k false ++ l) := by
  rw [show n + 1 + k = n + (k + 1) by omega, List.replicate_add, List.replicate_succ,
      List.append_assoc]
  rfl

theorem runNMEA_fields (fs : List (List Nat)) :
    ∀ (c1 c2 : Nat) (m : GpsDataNmea) (p q : Nat) (s : List Nat) (fr : Nat)
      (sol : GpsSolution) (stats : GpsStats),
      fs ≠ [] → (∀ f ∈ fs, FieldOK f) → PlainChar c1 → PlainChar c2 → s.length = 16 →
      ∃ sfin : List Nat,
        runNMEA (joinFields fs ++ [42, c1, c2, 13, 10])
            ⟨⟨m, p, 0, q, s, false, fr⟩, sol, stats⟩ =
          (List.replicate ((joinFields fs).length + 3) false ++
             [decide (hexPairVal c1 c2 = (joinFields fs).foldl xor8 q ∧
                (foldFields fs p fr m).2.1 = 1), false],
           ⟨⟨(foldFields fs p fr m).2.2, (foldFields fs p fr m).1, 2,
             (joinFields fs).foldl xor8 q, sfin, false, (foldFields fs p fr m).2.1⟩,
            (if hexPairVal c1 c2 = (joinFields fs).foldl xor8 q then
               commitSol (foldFields fs p fr m).2.1 (foldFields fs p fr m).2.2 sol
             else sol),
            (if hexPairVal c1 c2 = (joinFields fs).foldl xor8 q then
               { stats with packetCount := stats.packetCount + 1 }
             else { stats with errors := stats.errors + 1 })⟩) := by
  induction fs with
  | nil =>
    intro c1 c2 m p q s fr sol stats hne
    exact absurd rfl hne
  | cons f rest ih =>
    intro c1 c2 m p q s fr sol stats _ hfs h1 h2 hs
    cases rest with
    | nil =>
      obtain ⟨s2, hs2, hrun⟩ := runNMEA_field_star f m p q s fr sol stats
        (hfs f (List.mem_cons_self f [])) hs
      have htail := runNMEA_tail c1 c2
        (dispatchMsgPure (if p = 0 then identifyFramePure f else fr) p m f)
        ((p + 1) % 256) (f.foldl xor8 q) s2
        (if p = 0 then identifyFramePure f else fr) sol stats h1 h2 hs2
      refine ⟨c1 :: c2 :: s2.drop 2, ?_⟩
      have hsplit : joinFields [f] ++ [42, c1, c2, 13, 10] =
          (f ++ [42]) ++ [c1, c2, 13, 10] := by
        simp [joinFields]
      rw [hsplit, runNMEA_append, hrun, htail]
      simp only [joinFields, foldFields]
      have hrep : List.replicate (f.length + 3) false =
          List.replicate f.length false ++ [false, false, false] := by
        rw [List.replicate_add]
        rfl
      rw [hrep]
      simp
      rw [replicate_false_shift]
    | cons g fs2 =>
      obtain ⟨s2, hs2, hrun⟩ := runNMEA_field_comma f m p q s fr sol stats
        (hfs f (List.mem_cons_self f (g :: fs2))) hs
      obtain ⟨sfin, hrest⟩ := ih c1 c2
        (dispatchMsgPure (if p = 0 then identifyFramePure f else fr) p m f)
        ((p + 1) % 256) (xor8 (f.foldl xor8 q) 44) s2
        (if p = 0 then identifyFramePure f else fr) sol stats
        (by simp) (fun d hd => hfs d (List.mem_cons_of_mem f hd)) h1 h2 hs2
      refine ⟨sfin, ?_⟩
      have hsplit : joinFields (f :: g :: fs2) ++ [42, c1, c2, 13, 10] =
          (f ++ [44]) ++ (joinFields (g :: fs2) ++ [42, c1, c2, 13, 10]) := by
        simp [joinFields]
      rw [hsplit, runNMEA_append, hrun, hrest]
      simp only [joinFields, foldFields, List.foldl_append, List.foldl_cons]
      have hlen : (f ++ 44 :: joinFields (g :: fs2)).length + 3 =
          f.length + 1 + ((joinFields (g :: fs2)).length + 3) := by
        simp only [List.length_append, List.length_cons]
        omega
      rw [hlen, List.replicate_add, List.append_assoc, replicate_false_shift]
      simp
      rw [replicate_false_assemble]

theorem runNMEA_sentence (fs : List (List Nat)) (c1 c2 : Nat)
    (m : GpsDataNmea) (p0 o0 q0 : Nat) (s : List Nat) (fr : Nat)
    (sol : GpsSolution) (stats : GpsStats)
    (hne : fs ≠ []) (hfs : ∀ f ∈ fs, FieldOK f) (h1 : PlainChar c1) (h2 : PlainChar c2)
    (hs : s.length = 16) :
    ∃ sfin : List Nat,
      runNMEA (sentenceBytes fs c1 c2) ⟨⟨m, p0, o0, q0, s, false, fr⟩, sol, stats⟩ =
        (false :: (List.replicate ((joinFields fs).length + 3) false ++
           [decide (hexPairVal c1 c2 = parityOf fs ∧ (foldFields fs 0 fr m).2.1 = 1), false]),
         ⟨⟨(foldFields fs 0 fr m).2.2, (foldFields fs 0 fr m).1, 2,
           parityOf fs, sfin, false, (foldFields fs 0 fr m).2.1⟩,
          (if hexPairVal c1 c2 = parityOf fs then
             commitSol (foldFields fs 0 fr m).2.1 (foldFields fs 0 fr m).2.2 sol
           else sol),
          (if hexPairVal c1 c2 = parityOf fs then
             { stats with packetCount := stats.packetCount + 1 }
           else { stats with errors := stats.errors + 1 })⟩) := by
  obtain ⟨sfin, hrun⟩ := runNMEA_fields fs c1 c2 m 0 0 s fr sol stats hne hfs h1 h2 hs
  have hdollar : gpsNewFrameNMEA 36 ⟨⟨m, p0, o0, q0, s, false, fr⟩, sol, stats⟩ =
      (false, ⟨⟨m, 0, 0, 0, s, false, fr⟩, sol, stats⟩) := by
    simp [gpsNewFrameNMEA]
  refine ⟨sfin, ?_⟩
  simp only [sentenceBytes, runNMEA, hdollar, List.append_eq, hrun, parityOf]

theorem gpsNewFrameNMEA_safe (c : Nat) (e : GpsEnv)
    (h42 : c ≠ 42) (h13 : c ≠ 13) (h10 : c ≠ 10)
    (hck : e.ps.checksum_param = false) :
    (gpsNewFrameNMEA c e).1 = false ∧
    (gpsNewFrameNMEA c e).2.sol = e.sol ∧
    (gpsNewFrameNMEA c e).2.stats = e.stats ∧
    (gpsNewFrameNMEA c e).2.ps.checksum_param = false ∧
    (gpsNewFrameNMEA c e).2.ps.string.length = e.ps.string.length := by
  unfold gpsNewFrameNMEA
  by_cases h36 : c = 36
  · simp [h36, hck]
  rw [if_neg h36]
  by_cases h44 : c = 44
  · rw [if_pos (Or.inl h44), if_neg h42]
    refine ⟨rfl, rfl, rfl, hck, ?_⟩
    split_ifs <;> simp [ggaDispatch_snd_length, rmcDispatch_snd_length, List.length_set]
  rw [if_neg (by tauto : ¬(c = 44 ∨ c = 42)), if_neg (by tauto : ¬(c = 13 ∨ c = 10))]
  by_cases ho : e.ps.offset < 15
  · rw [if_pos ho, hck]
    simp [List.length_set, hck]
  · rw [if_neg ho]
    exact ⟨rfl, rfl, rfl, hck, rfl⟩

theorem runNMEA_prefix (pre : List Nat) :
    ∀ e : GpsEnv, (∀ c ∈ pre, c ≠ 42 ∧ c ≠ 13 ∧ c ≠ 10) → e.ps.checksum_param = false →
      (runNMEA pre e).1 = List.replicate pre.length false ∧
      (runNMEA pre e).2.sol = e.sol ∧
      (runNMEA pre e).2.stats = e.stats ∧
      (runNMEA pre e).2.ps.checksum_param = false ∧
      (runNMEA pre e).2.ps.string.length = e.ps.string.length := by
  induction pre with
  | nil => intro e _ hck; exact ⟨rfl, rfl, rfl, hck, rfl⟩
  | cons c cs ih =>
    intro e hpre hck
    obtain ⟨h42, h13, h10⟩ := hpre c (List.mem_cons_self c cs)
    obtain ⟨hb, hsol, hstats, hck2, hlen⟩ := gpsNewFrameNMEA_safe c e h42 h13 h10 hck
    obtain ⟨ib, isol, istats, ick, ilen⟩ := ih (gpsNewFrameNMEA c e).2
      (fun d hd => hpre d (List.mem_cons_of_mem c hd)) hck2
    simp only [runNMEA]
    refine ⟨?_, ?_, ?_, ?_, ?_⟩
    · rw [hb, ib, List.length_cons, List.replicate_succ]
    · rw [isol, hsol]
    · rw [istats, hstats]
    · exact ick
    · rw [ilen, hlen]

theorem foldFields_high (rest : List (List Nat)) :
    ∀ (p fr : Nat) (m : GpsDataNmea), 10 ≤ p → p + rest.length ≤ 255 →
      (foldFields rest p fr m).2 = (fr, m) := by
  induction rest with
  | nil => intro p fr m _ _; rfl
  | cons f rs ih =>
    intro p fr m hp hb
    have hlen : p + 1 + rs.length ≤ 255 := by
      simp only [List.length_cons] at hb
      omega
    have hmod : (p + 1) % 256 = p + 1 := Nat.mod_eq_of_lt (by omega)
    have hd : dispatchMsgPure (if p = 0 then identifyFramePure f else fr) p m f = m := by
      rw [if_neg (by omega : ¬p = 0)]
      unfold dispatchMsgPure ggaDispatchPure rmcDispatchPure
      split_ifs <;> first | rfl | omega
    simp only [foldFields]
    rw [if_neg (by omega : ¬p = 0)] at hd ⊢
    rw [hd, hmod]
    exact ih (p + 1) fr m (by omega) hlen

theorem foldFields_high2 (rest : List (List Nat)) :
    ∀ (p : Nat) (m : GpsDataNmea), 9 ≤ p → p + rest.length ≤ 255 →
      (foldFields rest p 2 m).2 = (2, m) := by
  induction rest with
  | nil => intro p m _ _; rfl
  | cons f rs ih =>
    intro p m hp hb
    have hlen : p + 1 + rs.length ≤ 255 := by
      simp only [List.length_cons] at hb
      omega
    have hmod : (p + 1) % 256 = p + 1 := Nat.mod_eq_of_lt (by omega)
    have hd : dispatchMsgPure 2 p m f = m := by
      unfold dispatchMsgPure ggaDispatchPure rmcDispatchPure
      split_ifs <;> first | rfl | omega
    simp only [foldFields]
    rw [if_neg (by omega : ¬p = 0), hd, hmod]
    exact ih (p + 1) m (by omega) hlen

theorem foldFields_gga (idf t lat ns lon ew fixc sat hdp alt : List Nat)
    (rest : List (List Nat)) (fr : Nat) (m : GpsDataNmea)
    (hid : identifyFramePure idf = 1) (hrest : rest.length ≤ 245) :
    (foldFields (idf :: t :: lat :: ns :: lon :: ew :: fixc :: sat :: hdp :: alt :: rest)
        0 fr m).2 =
      (1,
       { m with
           latitude := if ns.headD 0 = 83 then wrapI32 (-(toInt32 (coordPure lat)))
                       else toInt32 (coordPure lat)
           longitude := if ew.headD 0 = 87 then wrapI32 (-(toInt32 (coordPure lon)))
                        else toInt32 (coordPure lon)
           fix := decide (48 < fixc.headD 0)
           numSat := grabPure sat 0 % 256
           hdop := (grabPure hdp 1 * 10) % 65536
           altitude := (grabPure alt 1 * 10) % 65536 }) := by
  simp only [foldFields, dispatchMsgPure, ggaDispatchPure, rmcDispatchPure, hid]
  norm_num
  rw [foldFields_high rest 10 1 _ (by omega) (by omega)]
  by_cases hns : ns.head?.getD 0 = 83 <;> by_cases hew : ew.head?.getD 0 = 87 <;>
    simp [hns, hew, List.headD_eq_head?_getD]

theorem foldFields_rmc (idf f1 f2 f3 f4 f5 f6 spd crs : List Nat)
    (rest : List (List Nat)) (fr : Nat) (m : GpsDataNmea)
    (hid : identifyFramePure idf = 2) (hrest : rest.length ≤ 245) :
    (foldFields (idf :: f1 :: f2 :: f3 :: f4 :: f5 :: f6 :: spd :: crs :: rest) 0 fr m).2 =
      (2,
       { m with
           speed := ((grabPure spd 1 * 5144) % 4294967296 / 1000) % 65536
           ground_course := grabPure crs 1 % 65536 }) := by
  simp only [foldFields, dispatchMsgPure, ggaDispatchPure, rmcDispatchPure, hid]
  norm_num
  rw [foldFields_high2 rest 9 _ (by omega) (by omega)]

theorem grabLoop_mult0_buf (fuel : Nat) :
    ∀ (buf : List Nat) (i tmp : Nat), (grabLoop fuel buf 0 i tmp).2 = buf := by
  induction fuel with
  | zero => intros; rfl
  | succ n ih =>
    intro buf i tmp
    simp only [grabLoop]
    by_cases h0 : buf.getD i 0 = 0
    · rw [if_pos h0]
    rw [if_neg h0]
    by_cases hd : buf.getD i 0 = 46
    · rw [if_pos (show _ ∧ _ from ⟨hd, by trivial⟩)]
    rw [if_neg (fun hcon => hd hcon.1)]
    simp only [if_neg hd]
    by_cases h15 : 15 ≤ i
    · rw [if_pos h15]
    rw [if_neg h15]
    exact ih buf (i + 1) _

theorem grabLoop_nodot_buf (fuel : Nat) :
    ∀ (buf : List Nat) (mult i tmp : Nat), 46 ∉ buf →
      (grabLoop fuel buf mult i tmp).2 = buf := by
  induction fuel with
  | zero => intros; rfl
  | succ n ih =>
    intro buf mult i tmp hnd
    have hd : buf.getD i 0 ≠ 46 := by
      rcases Nat.lt_or_ge i buf.length with h | h
      · exact fun hc => hnd (hc ▸ getD_mem_of_lt h)
      · rw [List.getD_eq_default _ _ h]
        decide
    simp only [grabLoop]
    by_cases h0 : buf.getD i 0 = 0
    · rw [if_pos h0]
    rw [if_neg h0, if_neg (fun hcon => hd hcon.1)]
    simp only [if_neg hd]
    by_cases h15 : 15 ≤ i
    · rw [if_pos h15]
    rw [if_neg h15]
    exact ih buf mult (i + 1) _ hnd

theorem getD_map_norm (buf : List Nat) (i : Nat) :
    (buf.map normNonDigit).getD i 0 = normNonDigit (buf.getD i 0) := by
  rcases Nat.lt_or_ge i buf.length with h | h
  · rw [List.getD_eq_getElem _ _ (by simpa using h), List.getD_eq_getElem _ _ h,
        List.getElem_map]
  · rw [List.getD_eq_default _ _ (by simpa using h), List.getD_eq_default _ _ h]
    simp [normNonDigit]

theorem nnd_eq_zero {c : Nat} : normNonDigit c = 0 ↔ c = 0 := by
  unfold normNonDigit
  split_ifs with h
  · exact Iff.rfl
  · have hc : c ≠ 0 := fun h0 => h (Or.inr (Or.inr h0))
    constructor
    · intro h48
      exact h48.elim
    · intro h0
      exact absurd h0 hc
  
theorem nnd_eq_dot {c : Nat} : normNonDigit c = 46 ↔ c = 46 := by
  unfold normNonDigit
  split_ifs with h
  · exact Iff.rfl
  · have hc : c ≠ 46 := fun h0 => h (Or.inl h0)
    constructor
    · intro h48
      exact absurd h48 (by omega)
    · intro h0
      exact absurd h0 hc

theorem tmp2_norm (c tmp : Nat) :
    (if 48 ≤ normNonDigit c ∧ normNonDigit c ≤ 57 then
       (tmp * 10 % 4294967296 + (normNonDigit c - 48)) % 4294967296
     else tmp * 10 % 4294967296) =
    (if 48 ≤ c ∧ c ≤ 57 then (tmp * 10 % 4294967296 + (c - 48)) % 4294967296
     else tmp * 10 % 4294967296) := by
  unfold normNonDigit
  split_ifs <;> omega

theorem grabLoop_norm (fuel : Nat) :
    ∀ (mult : Nat) (buf : List Nat) (i tmp : Nat),
      (grabLoop fuel (buf.map normNonDigit) mult i tmp).1 =
        (grabLoop fuel buf mult i tmp).1 := by
  induction fuel with
  | zero => intros; rfl
  | succ n ih =>
    intro mult buf i tmp
    have hr := getD_map_norm buf i
    simp only [grabLoop, hr]
    by_cases h0 : buf.getD i 0 = 0
    · rw [h0]
      simp [normNonDigit]
    have hn0 : ¬normNonDigit (buf.getD i 0) = 0 := fun h => h0 (nnd_eq_zero.mp h)
    rw [if_neg hn0, if_neg h0]
    by_cases hd : buf.getD i 0 = 46
    · have hnd : normNonDigit (buf.getD i 0) = 46 := by
        rw [hd]
        decide
      by_cases hm : mult = 0
      · rw [if_pos (show normNonDigit (buf.getD i 0) = 46 ∧ mult = 0 from ⟨hnd, hm⟩),
            if_pos (show buf.getD i 0 = 46 ∧ mult = 0 from ⟨hd, hm⟩)]
      rw [if_neg (show ¬(normNonDigit (buf.getD i 0) = 46 ∧ mult = 0) from fun h => hm h.2),
          if_neg (show ¬(buf.getD i 0 = 46 ∧ mult = 0) from fun h => hm h.2)]
      simp only [if_pos hnd, if_pos hd]
      have hset : (buf.map normNonDigit).set (i + 1 + mult) 0 =
          (buf.set (i + 1 + mult) 0).map normNonDigit := by
        rw [List.map_set]
        rfl
      rw [hset, getD_map_norm (buf.set (i + 1 + mult) 0) (i + 1),
          tmp2_norm ((buf.set (i + 1 + mult) 0).getD (i + 1) 0) tmp]
      by_cases h15 : 15 ≤ i + 1
      · rw [if_pos h15, if_pos h15]
      rw [if_neg h15, if_neg h15]
      exact ih mult (buf.set (i + 1 + mult) 0) (i + 1 + 1) _
    · have hnd : ¬normNonDigit (buf.getD i 0) = 46 := fun h => hd (nnd_eq_dot.mp h)
      rw [if_neg (show ¬(normNonDigit (buf.getD i 0) = 46 ∧ mult = 0) from fun h => hnd h.1),
          if_neg (show ¬(buf.getD i 0 = 46 ∧ mult = 0) from fun h => hd h.1)]
      simp only [if_neg hnd, if_neg hd]
      rw [hr, tmp2_norm (buf.getD i 0) tmp]
      by_cases h15 : 15 ≤ i
      · rw [if_pos h15, if_pos h15]
      rw [if_neg h15, if_neg h15]
      exact ih mult buf (i + 1) _

theorem grabLoop_digits (fuel : Nat) :
    ∀ (buf : List Nat) (mult i tmp : Nat),
      (∀ k, k < 16 → 48 ≤ buf.getD k 0 ∧ buf.getD k 0 ≤ 57) →
      i ≤ 15 → 16 - i ≤ fuel →
      (grabLoop fuel buf mult i tmp).1 = 0 := by
  induction fuel with
  | zero =>
    intro buf mult i tmp _ hi hf
    omega
  | succ n ih =>
    intro buf mult i tmp hdig hi hf
    obtain ⟨hlo, hhi⟩ := hdig i (by omega)
    simp only [grabLoop]
    rw [if_neg (by omega), if_neg (fun hcon => absurd hcon.1 (by omega))]
    simp only [if_neg (by omega : ¬buf.getD i 0 = 46)]
    by_cases h15 : 15 ≤ i
    · rw [if_pos h15]
    rw [if_neg h15]
    exact ih buf mult (i + 1) _ hdig (by omega) (by omega)

/-- C4 counterexample: the claim that `grab_fields` leaves the caller's
buffer unchanged is false.  Decoding the buffer `1.23` with one fractional
digit writes a terminating zero over the final `3`. -/
theorem C4_counterexample : (grab_fields [49, 46, 50, 51] 1).2 ≠ [49, 46, 50, 51] := by
  decide

/-- C4 (amended): `grab_fields` is a pure function of its arguments in this
embedding (determinism is by construction), but it leaves the caller's
buffer unchanged only when the fractional-digit count is zero or the buffer
contains no decimal point; a decimal point with a nonzero count makes it
write a terminating zero into the buffer. -/
theorem C4_buffer_unchanged (buf : List Nat) (mult : Nat)
    (h : mult = 0 ∨ 46 ∉ buf) : (grab_fields buf mult).2 = buf := by
  unfold grab_fields
  rcases h with rfl | hnd
  · exact grabLoop_mult0_buf 32 buf 0 0
  · exact grabLoop_nodot_buf 32 buf mult 0 0 hnd

/-- C4 witness: a concrete decode with no decimal point leaves the buffer
unchanged. -/
theorem C4_witness : (grab_fields [49, 50, 51] 5).2 = [49, 50, 51] :=
  C4_buffer_unchanged [49, 50, 51] 5 (Or.inr (by decide))

/-- C5 counterexample: a non-digit character is not "skipped without
altering the accumulated value": deleting the `A` from `1A2` changes the
decoded value (102 with the `A`, 12 without it). -/
theorem C5_counterexample : (grab_fields [49, 65, 50] 0).1 ≠ (grab_fields [49, 50] 0).1 := by
  decide

/-- C5 (amended): a character that is neither a digit nor a decimal point
still multiplies the accumulator by ten, contributing exactly as the digit
`0` would: replacing every such character by `0` (done by `normNonDigit`)
leaves the decoded value unchanged. -/
theorem C5_nondigit_as_zero (buf : List Nat) (mult : Nat) :
    (grab_fields (buf.map normNonDigit) mult).1 = (grab_fields buf mult).1 :=
  grabLoop_norm 32 mult buf 0 0

/-- C6: the four field-decoder facts: `1234.56` with 2 fractional digits
decodes to 123456; with 0 fractional digits to 1234 (consumption stops at
the decimal point); `00.0` with 1 fractional digit decodes to 0; and any
buffer whose first 16 characters are all digits decodes to 0 (the
defensive length bound). -/
theorem C6_field_decoder :
    (grab_fields [49, 50, 51, 52, 46, 53, 54] 2).1 = 123456 ∧
    (grab_fields [49, 50, 51, 52, 46, 53, 54] 0).1 = 1234 ∧
    (grab_fields [48, 48, 46, 48] 1).1 = 0 ∧
    ∀ (buf : List Nat) (mult : Nat),
      (∀ k, k < 16 → 48 ≤ buf.getD k 0 ∧ buf.getD k 0 ≤ 57) →
      (grab_fields buf mult).1 = 0 := by
  refine ⟨by decide, by decide, by decide, ?_⟩
  intro buf mult hdig
  exact grabLoop_digits 32 buf mult 0 0 hdig (by omega) (by omega)

/-- C6 witness: a concrete sixteen-digit string decodes to 0. -/
theorem C6_witness : (grab_fields (List.replicate 16 57) 0).1 = 0 :=
  C6_field_decoder.2.2.2 (List.replicate 16 57) 0 (by decide)

/-- C9: with auto-baud negotiation disabled, one invocation of the baud
negotiation step issues no transport writes and no baud-rate change (its
event list is empty) and immediately invokes the finalize handoff, which
moves the driver out of the `CHANGE_BAUD` phase. -/
theorem C9_autobaud_off (st : GpsDriverState)
    (h : st.autoBaud = GpsAutoBaud.GPS_AUTOBAUD_OFF) :
    gpsChangeBaud st = gpsFinalizeChangeBaud st ∧
    (gpsChangeBaud st).2 = [] ∧
    (gpsChangeBaud st).1.state ≠ GpsState_e.GPS_CHANGE_BAUD := by
  have hstep : gpsChangeBaud st = gpsFinalizeChangeBaud st := by
    unfold gpsChangeBaud
    rw [if_neg (by simp [h])]
  refine ⟨hstep, ?_, ?_⟩
  · rw [hstep]
    rfl
  · rw [hstep]
    unfold gpsFinalizeChangeBaud gpsSetState
    simp

/-- C9 witness: the off-path at a concrete driver state. -/
theorem C9_witness :
    gpsChangeBaud ⟨GpsState_e.GPS_CHANGE_BAUD, 0, 0, 0, GpsProvider.GPS_NMEA,
        GpsAutoBaud.GPS_AUTOBAUD_OFF, 1000, true⟩ =
      gpsFinalizeChangeBaud ⟨GpsState_e.GPS_CHANGE_BAUD, 0, 0, 0, GpsProvider.GPS_NMEA,
        GpsAutoBaud.GPS_AUTOBAUD_OFF, 1000, true⟩ ∧
    (gpsChangeBaud ⟨GpsState_e.GPS_CHANGE_BAUD, 0, 0, 0, GpsProvider.GPS_NMEA,
        GpsAutoBaud.GPS_AUTOBAUD_OFF, 1000, true⟩).2 = [] ∧
    (gpsChangeBaud ⟨GpsState_e.GPS_CHANGE_BAUD, 0, 0, 0, GpsProvider.GPS_NMEA,
        GpsAutoBaud.GPS_AUTOBAUD_OFF, 1000, true⟩).1.state ≠ GpsState_e.GPS_CHANGE_BAUD :=
  C9_autobaud_off _ rfl

theorem gpsNewFrameNMEA_vel (c : Nat) (e : GpsEnv) :
    ((gpsNewFrameNMEA c e).2.sol.flags.validVelNE = false ∧
     (gpsNewFrameNMEA c e).2.sol.flags.validVelD = false) ∨
    ((gpsNewFrameNMEA c e).2.sol.flags.validVelNE = e.sol.flags.validVelNE ∧
     (gpsNewFrameNMEA c e).2.sol.flags.validVelD = e.sol.flags.validVelD) := by
  simp only [gpsNewFrameNMEA]
  split_ifs <;> first
    | exact Or.inl ⟨rfl, rfl⟩
    | exact Or.inr ⟨rfl, rfl⟩

theorem gpsReceiveData_vel (bytes : List Nat) :
    ∀ e : GpsEnv,
      (((gpsReceiveData bytes e).2.sol.flags.validVelNE = false ∧
        (gpsReceiveData bytes e).2.sol.flags.validVelD = false) ∨
       ((gpsReceiveData bytes e).2.sol.flags.validVelNE = e.sol.flags.validVelNE ∧
        (gpsReceiveData bytes e).2.sol.flags.validVelD = e.sol.flags.validVelD)) ∧
      ((gpsReceiveData bytes e).1 = true →
        (gpsReceiveData bytes e).2.sol.flags.validVelNE = false ∧
        (gpsReceiveData bytes e).2.sol.flags.validVelD = false) := by
  induction bytes with
  | nil =>
    intro e
    exact ⟨Or.inr ⟨rfl, rfl⟩, fun h => by cases h⟩
  | cons c cs ih =>
    intro e
    simp only [gpsReceiveData]
    by_cases hr : (gpsNewFrameNMEA c e).1
    · -- a frame completed: the wrapper explicitly clears the flags
      rw [if_pos hr]
      set e1 : GpsEnv :=
        { (gpsNewFrameNMEA c e).2 with sol := { (gpsNewFrameNMEA c e).2.sol with
            flags := { (gpsNewFrameNMEA c e).2.sol.flags with
              gpsHeartbeat := !(gpsNewFrameNMEA c e).2.sol.flags.gpsHeartbeat
              validVelNE := false
              validVelD := false } } } with he1
      have h1 : e1.sol.flags.validVelNE = false := rfl
      have h2 : e1.sol.flags.validVelD = false := rfl
      obtain ⟨imain, iimp⟩ := ih e1
      rcases imain with ⟨ia, ib⟩ | ⟨ia, ib⟩
      · exact ⟨Or.inl ⟨ia, ib⟩, fun _ => ⟨ia, ib⟩⟩
      · rw [h1] at ia
        rw [h2] at ib
        exact ⟨Or.inl ⟨ia, ib⟩, fun _ => ⟨ia, ib⟩⟩
    · rw [if_neg hr]
      obtain ⟨imain, iimp⟩ := ih (gpsNewFrameNMEA c e).2
      rcases gpsNewFrameNMEA_vel c e with ⟨sa, sb⟩ | ⟨sa, sb⟩
      · rcases imain with ⟨ia, ib⟩ | ⟨ia, ib⟩
        · refine ⟨Or.inl ⟨ia, ib⟩, fun _ => ⟨ia, ib⟩⟩
        · rw [sa] at ia
          rw [sb] at ib
          refine ⟨Or.inl ⟨ia, ib⟩, fun _ => ⟨ia, ib⟩⟩
      · have hmain :
            ((gpsReceiveData cs (gpsNewFrameNMEA c e).2).2.sol.flags.validVelNE = false ∧
             (gpsReceiveData cs (gpsNewFrameNMEA c e).2).2.sol.flags.validVelD = false) ∨
            ((gpsReceiveData cs (gpsNewFrameNMEA c e).2).2.sol.flags.validVelNE =
               e.sol.flags.validVelNE ∧
             (gpsReceiveData cs (gpsNewFrameNMEA c e).2).2.sol.flags.validVelD =
               e.sol.flags.validVelD) := by
          rcases imain with ⟨ia, ib⟩ | ⟨ia, ib⟩
          · exact Or.inl ⟨ia, ib⟩
          · rw [sa] at ia
            rw [sb] at ib
            exact Or.inr ⟨ia, ib⟩
        refine ⟨hmain, ?_⟩
        intro hor
        have hcs : (gpsReceiveData cs (gpsNewFrameNMEA c e).2).1 = true := by
          rcases Bool.or_eq_true_iff.mp hor with h | h
          · exact absurd h hr
          · exact h
        exact iimp hcs

/-- C8: across any sequence of received bytes, the driver only ever writes
the velocity-north/east and velocity-down validity flags to 0: after a
tick the flags are either cleared or exactly their previous values, and
whenever the tick reports new data the flags read as cleared. -/
theorem C8_velocity_flags_cleared (bytes : List Nat) (e : GpsEnv) :
    (((gpsReceiveData bytes e).2.sol.flags.validVelNE = false ∧
      (gpsReceiveData bytes e).2.sol.flags.validVelD = false) ∨
     ((gpsReceiveData bytes e).2.sol.flags.validVelNE = e.sol.flags.validVelNE ∧
      (gpsReceiveData bytes e).2.sol.flags.validVelD = e.sol.flags.validVelD)) ∧
    ((gpsReceiveData bytes e).1 = true →
      (gpsReceiveData bytes e).2.sol.flags.validVelNE = false ∧
      (gpsReceiveData bytes e).2.sol.flags.validVelD = false) :=
  gpsReceiveData_vel bytes e

/-- C8 witness: feeding the minimal valid fix-data sentence reports new
data and leaves both velocity validity flags cleared. -/
theorem C8_witness :
    (gpsReceiveData minimalGgaBytes e0gps).1 = true ∧
    (gpsReceiveData minimalGgaBytes e0gps).2.sol.flags.validVelNE = false ∧
    (gpsReceiveData minimalGgaBytes e0gps).2.sol.flags.validVelD = false :=
  ⟨by decide, (C8_velocity_flags_cleared minimalGgaBytes e0gps).2 (by decide)⟩

theorem hexchar_plain {c : Nat} (h : HexChar c) : PlainChar c := by
  unfold HexChar at h
  unfold PlainChar
  refine ⟨?_, ?_, ?_, ?_, ?_⟩ <;> omega

theorem all_false_sentence (n : Nat) :
    false :: (List.replicate n false ++ [false, false]) = List.replicate (n + 3) false := by
  induction n with
  | zero => rfl
  | succ k ih =>
    rw [show k + 1 + 3 = (k + 3) + 1 by omega]
    conv_rhs => rw [List.replicate_succ]
    rw [← ih, List.replicate_succ, List.cons_append]

/-- C2: for a sentence whose two trailing hex checksum characters do not
match the exclusive-or of all bytes between `$` and `*`, the parser never
reports a frame, leaves the navigation solution unchanged, and increments
the checksum-error counter by exactly one (the packet counter is
unchanged). -/
theorem C2_checksum_mismatch (fs : List (List Nat)) (c1 c2 : Nat)
    (m : GpsDataNmea) (p0 o0 q0 : Nat) (s : List Nat) (fr : Nat)
    (sol : GpsSolution) (stats : GpsStats)
    (hne : fs ≠ []) (hfs : ∀ f ∈ fs, FieldOK f)
    (h1 : HexChar c1) (h2 : HexChar c2) (hs : s.length = 16)
    (hbad : hexPairVal c1 c2 ≠ parityOf fs) :
    (runNMEA (sentenceBytes fs c1 c2) ⟨⟨m, p0, o0, q0, s, false, fr⟩, sol, stats⟩).1 =
      List.replicate (sentenceBytes fs c1 c2).length false ∧
    (runNMEA (sentenceBytes fs c1 c2) ⟨⟨m, p0, o0, q0, s, false, fr⟩, sol, stats⟩).2.sol = sol ∧
    (runNMEA (sentenceBytes fs c1 c2) ⟨⟨m, p0, o0, q0, s, false, fr⟩, sol, stats⟩).2.stats =
      ⟨stats.packetCount, stats.errors + 1⟩ := by
  obtain ⟨sfin, hrun⟩ := runNMEA_sentence fs c1 c2 m p0 o0 q0 s fr sol stats hne hfs
    (hexchar_plain h1) (hexchar_plain h2) hs
  have hdec : decide (hexPairVal c1 c2 = parityOf fs ∧ (foldFields fs 0 fr m).2.1 = 1) = false := by
    simp [hbad]
  have houts : (runNMEA (sentenceBytes fs c1 c2) ⟨⟨m, p0, o0, q0, s, false, fr⟩, sol, stats⟩).1 =
      false :: (List.replicate ((joinFields fs).length + 3) false ++
        [decide (hexPairVal c1 c2 = parityOf fs ∧ (foldFields fs 0 fr m).2.1 = 1), false]) := by
    rw [hrun]
  have hsol : (runNMEA (sentenceBytes fs c1 c2) ⟨⟨m, p0, o0, q0, s, false, fr⟩, sol, stats⟩).2.sol =
      (if hexPairVal c1 c2 = parityOf fs then
         commitSol (foldFields fs 0 fr m).2.1 (foldFields fs 0 fr m).2.2 sol
       else sol) := by
    rw [hrun]
  have hstats : (runNMEA (sentenceBytes fs c1 c2) ⟨⟨m, p0, o0, q0, s, false, fr⟩, sol, stats⟩).2.stats =
      (if hexPairVal c1 c2 = parityOf fs then
         { stats with packetCount := stats.packetCount + 1 }
       else { stats with errors := stats.errors + 1 }) := by
    rw [hrun]
  refine ⟨?_, ?_, ?_⟩
  · rw [houts, hdec]
    have hL : (sentenceBytes fs c1 c2).length = ((joinFields fs).length + 3) + 3 := by
      simp [sentenceBytes]
    rw [hL]
    exact all_false_sentence _
  · rw [hsol, if_neg hbad]
  · rw [hstats, if_neg hbad]

/-- C2 witness: the one-field sentence with body `X` and stated checksum
`00` (the correct checksum is `58`) increments the error counter and
leaves the solution record untouched. -/
theorem C2_witness :
    (runNMEA (sentenceBytes [[88]] 48 48)
        ⟨⟨⟨false, 0, 0, 0, 0, 0, 0, 0⟩, 0, 0, 0, List.replicate 16 0, false, 0⟩,
         ⟨GpsFixType.GPS_NO_FIX, 0, 111, 222, 333, 4, 5, 6, 7, 8, ⟨false, true, true, true⟩⟩,
         ⟨0, 0⟩⟩).1 =
      List.replicate (sentenceBytes [[88]] 48 48).length false ∧
    (runNMEA (sentenceBytes [[88]] 48 48)
        ⟨⟨⟨false, 0, 0, 0, 0, 0, 0, 0⟩, 0, 0, 0, List.replicate 16 0, false, 0⟩,
         ⟨GpsFixType.GPS_NO_FIX, 0, 111, 222, 333, 4, 5, 6, 7, 8, ⟨false, true, true, true⟩⟩,
         ⟨0, 0⟩⟩).2.sol =
      ⟨GpsFixType.GPS_NO_FIX, 0, 111, 222, 333, 4, 5, 6, 7, 8, ⟨false, true, true, true⟩⟩ ∧
    (runNMEA (sentenceBytes [[88]] 48 48)
        ⟨⟨⟨false, 0, 0, 0, 0, 0, 0, 0⟩, 0, 0, 0, List.replicate 16 0, false, 0⟩,
         ⟨GpsFixType.GPS_NO_FIX, 0, 111, 222, 333, 4, 5, 6, 7, 8, ⟨false, true, true, true⟩⟩,
         ⟨0, 0⟩⟩).2.stats = ⟨0, 1⟩ :=
  C2_checksum_mismatch [[88]] 48 48 ⟨false, 0, 0, 0, 0, 0, 0, 0⟩ 0 0 0
    (List.replicate 16 0) 0
    ⟨GpsFixType.GPS_NO_FIX, 0, 111, 222, 333, 4, 5, 6, 7, 8, ⟨false, true, true, true⟩⟩
    ⟨0, 0⟩ (by decide) (by decide) (by decide) (by decide) (by decide) (by decide)

/-- C1 (amended): for every well-formed fix-data (GGA) sentence with a
correct checksum whose fix-indicator field starts with a character above
`0`, byte-by-byte parsing reports the frame-ready signal exactly once, at
the terminating line-ending byte, and the navigation solution then holds
the sentence's latitude, longitude, altitude, satellite count and
HDOP-derived error estimates.  (The counterexample shows the original
claim fails when the fix indicator is `0`: position fields are then left
unchanged, see C10.) -/
theorem C1_gga_commit (idf t lat ns lon ew fixc sat hdp alt : List Nat)
    (rest : List (List Nat)) (c1 c2 : Nat)
    (m : GpsDataNmea) (p0 o0 q0 : Nat) (s : List Nat) (fr : Nat)
    (sol : GpsSolution) (stats : GpsStats)
    (hid : idf = gpggaId ∨ idf = gnggaId)
    (hfs : ∀ f ∈ idf :: t :: lat :: ns :: lon :: ew :: fixc :: sat :: hdp :: alt :: rest,
      FieldOK f)
    (hrest : rest.length ≤ 245)
    (h1 : HexChar c1) (h2 : HexChar c2) (hs : s.length = 16)
    (hsum : hexPairVal c1 c2 =
      parityOf (idf :: t :: lat :: ns :: lon :: ew :: fixc :: sat :: hdp :: alt :: rest))
    (hfix : 48 < fixc.headD 0) :
    (runNMEA (sentenceBytes (idf :: t :: lat :: ns :: lon :: ew :: fixc :: sat :: hdp :: alt :: rest) c1 c2)
        ⟨⟨m, p0, o0, q0, s, false, fr⟩, sol, stats⟩).1 =
      List.replicate
        ((sentenceBytes (idf :: t :: lat :: ns :: lon :: ew :: fixc :: sat :: hdp :: alt :: rest) c1 c2).length - 2)
        false ++ [true, false] ∧
    (runNMEA (sentenceBytes (idf :: t :: lat :: ns :: lon :: ew :: fixc :: sat :: hdp :: alt :: rest) c1 c2)
        ⟨⟨m, p0, o0, q0, s, false, fr⟩, sol, stats⟩).2.sol =
      { sol with
          fixType := GpsFixType.GPS_FIX_3D
          numSat := grabPure sat 0 % 256
          lat := if ns.headD 0 = 83 then wrapI32 (-(toInt32 (coordPure lat)))
                 else toInt32 (coordPure lat)
          lon := if ew.headD 0 = 87 then wrapI32 (-(toInt32 (coordPure lon)))
                 else toInt32 (coordPure lon)
          alt := ((grabPure alt 1 * 10) % 65536 : Nat)
          hdop := gpsConstrainHDOP ((grabPure hdp 1 * 10) % 65536)
          eph := gpsConstrainEPE ((grabPure hdp 1 * 10) % 65536 * GPS_HDOP_TO_EPH_MULTIPLIER)
          epv := gpsConstrainEPE ((grabPure hdp 1 * 10) % 65536 * GPS_HDOP_TO_EPH_MULTIPLIER)
          flags := ⟨sol.flags.gpsHeartbeat, false, false, false⟩ } ∧
    (runNMEA (sentenceBytes (idf :: t :: lat :: ns :: lon :: ew :: fixc :: sat :: hdp :: alt :: rest) c1 c2)
        ⟨⟨m, p0, o0, q0, s, false, fr⟩, sol, stats⟩).2.stats =
      ⟨stats.packetCount + 1, stats.errors⟩ := by
  have hidf : identifyFramePure idf = 1 := by
    rcases hid with rfl | rfl <;> decide
  obtain ⟨sfin, hrun⟩ := runNMEA_sentence
    (idf :: t :: lat :: ns :: lon :: ew :: fixc :: sat :: hdp :: alt :: rest) c1 c2
    m p0 o0 q0 s fr sol stats (by simp) hfs (hexchar_plain h1) (hexchar_plain h2) hs
  have hfold := foldFields_gga idf t lat ns lon ew fixc sat hdp alt rest fr m hidf hrest
  have hfr : (foldFields (idf :: t :: lat :: ns :: lon :: ew :: fixc :: sat :: hdp :: alt :: rest)
      0 fr m).2.1 = 1 := by rw [hfold]
  have hmsg : (foldFields (idf :: t :: lat :: ns :: lon :: ew :: fixc :: sat :: hdp :: alt :: rest)
      0 fr m).2.2 =
      { m with
          latitude := if ns.headD 0 = 83 then wrapI32 (-(toInt32 (coordPure lat)))
                      else toInt32 (coordPure lat)
          longitude := if ew.headD 0 = 87 then wrapI32 (-(toInt32 (coordPure lon)))
                       else toInt32 (coordPure lon)
          fix := decide (48 < fixc.headD 0)
          numSat := grabPure sat 0 % 256
          hdop := (grabPure hdp 1 * 10) % 65536
          altitude := (grabPure alt 1 * 10) % 65536 } := by rw [hfold]
  have hfixb : decide (48 < fixc.headD 0) = true := decide_eq_true hfix
  refine ⟨?_, ?_, ?_⟩
  · have houts := congrArg Prod.fst hrun
    simp only [] at houts
    rw [houts]
    have hdec : decide (hexPairVal c1 c2 =
        parityOf (idf :: t :: lat :: ns :: lon :: ew :: fixc :: sat :: hdp :: alt :: rest) ∧
        (foldFields (idf :: t :: lat :: ns :: lon :: ew :: fixc :: sat :: hdp :: alt :: rest)
          0 fr m).2.1 = 1) = true := by
      simp [hsum, hfr]
    rw [hdec]
    have hL : (sentenceBytes (idf :: t :: lat :: ns :: lon :: ew :: fixc :: sat :: hdp :: alt :: rest) c1 c2).length - 2 =
        (joinFields (idf :: t :: lat :: ns :: lon :: ew :: fixc :: sat :: hdp :: alt :: rest)).length + 4 := by
      simp [sentenceBytes]
    rw [hL]
    conv_rhs =>
      rw [show (joinFields (idf :: t :: lat :: ns :: lon :: ew :: fixc :: sat :: hdp :: alt :: rest)).length + 4 =
          ((joinFields (idf :: t :: lat :: ns :: lon :: ew :: fixc :: sat :: hdp :: alt :: rest)).length + 3) + 1 from by omega,
        List.replicate_succ, List.cons_append]
  · have hsol := congrArg (fun x => x.2.sol) hrun
    simp only [] at hsol
    rw [hsol, if_pos hsum, hfr, hmsg]
    have hfix2 : 48 < fixc.head?.getD 0 := by
      rw [← List.headD_eq_head?]
      exact hfix
    simp [commitSol, hfix2]
  · have hstats := congrArg (fun x => x.2.stats) hrun
    simp only [] at hstats
    rw [hstats, if_pos hsum]

set_option maxRecDepth 10000 in
/-- C1 counterexample: a checksum-valid GGA sentence whose fix-indicator
field is `0` is accepted (packet counter increments), yet the navigation
solution's latitude is NOT updated to the sentence's latitude field — the
original claim omits the fix-indicator precondition. -/
theorem C1_counterexample :
    (runNMEA ggaNoFixBytes e0gps).2.stats.packetCount = 1 ∧
    (runNMEA ggaNoFixBytes e0gps).2.sol.lat = 111 ∧
    toInt32 (coordPure [49]) ≠ 111 := by
  refine ⟨by decide, by decide, by decide⟩

/-- Witness for C1: the amended theorem instantiated on the classic
`GPGGA,,4807.038,N,01131.000,E,1,08,0.9,545.4*73` sentence. -/
theorem C1_witness :
    (runNMEA (sentenceBytes
        [gpggaId, [], strBytes "4807.038", strBytes "N", strBytes "01131.000",
         strBytes "E", strBytes "1", strBytes "08", strBytes "0.9", strBytes "545.4"] 55 51)
      ⟨⟨⟨false, 0, 0, 0, 0, 0, 0, 0⟩, 0, 0, 0, List.replicate 16 0, false, 0⟩,
        ⟨GpsFixType.GPS_NO_FIX, 0, 0, 0, 0, 0, 0, 0, 0, 0, ⟨false, true, true, true⟩⟩,
        ⟨0, 0⟩⟩).2.stats = ⟨1, 0⟩ := by
  have h := C1_gga_commit gpggaId [] (strBytes "4807.038") (strBytes "N")
    (strBytes "01131.000") (strBytes "E") (strBytes "1") (strBytes "08")
    (strBytes "0.9") (strBytes "545.4") [] 55 51
    ⟨false, 0, 0, 0, 0, 0, 0, 0⟩ 0 0 0 (List.replicate 16 0) 0
    ⟨GpsFixType.GPS_NO_FIX, 0, 0, 0, 0, 0, 0, 0, 0, 0, ⟨false, true, true, true⟩⟩
    ⟨0, 0⟩ (Or.inl rfl) (by decide) (by decide) (by decide) (by decide)
    (by decide) (by decide) (by decide)
  exact h.2.2

/-- C10: for every checksum-valid GGA sentence whose fix-indicator field
starts with `0` or lower (or is empty), the parser still signals
frame-ready at the line ending, still commits the satellite count, sets
the fix type to no-fix, and leaves latitude, longitude, altitude, HDOP
and the horizontal/vertical error estimates unchanged. -/
theorem C10_nofix (idf t lat ns lon ew fixc sat hdp alt : List Nat)
    (rest : List (List Nat)) (c1 c2 : Nat)
    (m : GpsDataNmea) (p0 o0 q0 : Nat) (s : List Nat) (fr : Nat)
    (sol : GpsSolution) (stats : GpsStats)
    (hid : idf = gpggaId ∨ idf = gnggaId)
    (hfs : ∀ f ∈ idf :: t :: lat :: ns :: lon :: ew :: fixc :: sat :: hdp :: alt :: rest,
      FieldOK f)
    (hrest : rest.length ≤ 245)
    (h1 : HexChar c1) (h2 : HexChar c2) (hs : s.length = 16)
    (hsum : hexPairVal c1 c2 =
      parityOf (idf :: t :: lat :: ns :: lon :: ew :: fixc :: sat :: hdp :: alt :: rest))
    (hfix : fixc.headD 0 ≤ 48) :
    (runNMEA (sentenceBytes (idf :: t :: lat :: ns :: lon :: ew :: fixc :: sat :: hdp :: alt :: rest) c1 c2)
        ⟨⟨m, p0, o0, q0, s, false, fr⟩, sol, stats⟩).1 =
      List.replicate
        ((sentenceBytes (idf :: t :: lat :: ns :: lon :: ew :: fixc :: sat :: hdp :: alt :: rest) c1 c2).length - 2)
        false ++ [true, false] ∧
    (runNMEA (sentenceBytes (idf :: t :: lat :: ns :: lon :: ew :: fixc :: sat :: hdp :: alt :: rest) c1 c2)
        ⟨⟨m, p0, o0, q0, s, false, fr⟩, sol, stats⟩).2.sol =
      { sol with
          fixType := GpsFixType.GPS_NO_FIX
          numSat := grabPure sat 0 % 256
          flags := ⟨sol.flags.gpsHeartbeat, false, false, sol.flags.validEPE⟩ } ∧
    (runNMEA (sentenceBytes (idf :: t :: lat :: ns :: lon :: ew :: fixc :: sat :: hdp :: alt :: rest) c1 c2)
        ⟨⟨m, p0, o0, q0, s, false, fr⟩, sol, stats⟩).2.stats =
      ⟨stats.packetCount + 1, stats.errors⟩ := by
  have hidf : identifyFramePure idf = 1 := by
    rcases hid with rfl | rfl <;> decide
  obtain ⟨sfin, hrun⟩ := runNMEA_sentence
    (idf :: t :: lat :: ns :: lon :: ew :: fixc :: sat :: hdp :: alt :: rest) c1 c2
    m p0 o0 q0 s fr sol stats (by simp) hfs (hexchar_plain h1) (hexchar_plain h2) hs
  have hfold := foldFields_gga idf t lat ns lon ew fixc sat hdp alt rest fr m hidf hrest
  have hfr : (foldFields (idf :: t :: lat :: ns :: lon :: ew :: fixc :: sat :: hdp :: alt :: rest)
      0 fr m).2.1 = 1 := by rw [hfold]
  have hmsg : (foldFields (idf :: t :: lat :: ns :: lon :: ew :: fixc :: sat :: hdp :: alt :: rest)
      0 fr m).2.2 =
      { m with
          latitude := if ns.headD 0 = 83 then wrapI32 (-(toInt32 (coordPure lat)))
                      else toInt32 (coordPure lat)
          longitude := if ew.headD 0 = 87 then wrapI32 (-(toInt32 (coordPure lon)))
                       else toInt32 (coordPure lon)
          fix := decide (48 < fixc.headD 0)
          numSat := grabPure sat 0 % 256
          hdop := (grabPure hdp 1 * 10) % 65536
          altitude := (grabPure alt 1 * 10) % 65536 } := by rw [hfold]
  refine ⟨?_, ?_, ?_⟩
  · have houts := congrArg Prod.fst hrun
    simp only [] at houts
    rw [houts]
    have hdec : decide (hexPairVal c1 c2 =
        parityOf (idf :: t :: lat :: ns :: lon :: ew :: fixc :: sat :: hdp :: alt :: rest) ∧
        (foldFields (idf :: t :: lat :: ns :: lon :: ew :: fixc :: sat :: hdp :: alt :: rest)
          0 fr m).2.1 = 1) = true := by
      simp [hsum, hfr]
    rw [hdec]
    have hL : (sentenceBytes (idf :: t :: lat :: ns :: lon :: ew :: fixc :: sat :: hdp :: alt :: rest) c1 c2).length - 2 =
        (joinFields (idf :: t :: lat :: ns :: lon :: ew :: fixc :: sat :: hdp :: alt :: rest)).length + 4 := by
      simp [sentenceBytes]
    rw [hL]
    conv_rhs =>
      rw [show (joinFields (idf :: t :: lat :: ns :: lon :: ew :: fixc :: sat :: hdp :: alt :: rest)).length + 4 =
          ((joinFields (idf :: t :: lat :: ns :: lon :: ew :: fixc :: sat :: hdp :: alt :: rest)).length + 3) + 1 from by omega,
        List.replicate_succ, List.cons_append]
  · have hsol := congrArg (fun x => x.2.sol) hrun
    simp only [] at hsol
    rw [hsol, if_pos hsum, hfr, hmsg]
    have hfix2 : ¬ 48 < fixc.head?.getD 0 := by
      rw [← List.headD_eq_head?]
      omega
    simp [commitSol, hfix2]
  · have hstats := congrArg (fun x => x.2.stats) hrun
    simp only [] at hstats
    rw [hstats, if_pos hsum]

/-- Witness for C10: the same GGA sentence as the C1 witness but with
fix indicator `0` (`*72`): satellite count committed, fix type set to
no-fix, position and accuracy fields untouched. -/
theorem C10_witness :
    (runNMEA (sentenceBytes
        [gpggaId, [], strBytes "4807.038", strBytes "N", strBytes "01131.000",
         strBytes "E", strBytes "0", strBytes "08", strBytes "0.9", strBytes "545.4"] 55 50)
      ⟨⟨⟨false, 0, 0, 0, 0, 0, 0, 0⟩, 0, 0, 0, List.replicate 16 0, false, 0⟩,
        ⟨GpsFixType.GPS_NO_FIX, 0, 11, 22, 33, 4, 5, 6, 0, 0, ⟨false, true, true, true⟩⟩,
        ⟨0, 0⟩⟩).2.sol =
      ⟨GpsFixType.GPS_NO_FIX, 8, 11, 22, 33, 4, 5, 6, 0, 0, ⟨false, false, false, true⟩⟩ := by
  have h := C10_nofix gpggaId [] (strBytes "4807.038") (strBytes "N")
    (strBytes "01131.000") (strBytes "E") (strBytes "0") (strBytes "08")
    (strBytes "0.9") (strBytes "545.4") [] 55 50
    ⟨false, 0, 0, 0, 0, 0, 0, 0⟩ 0 0 0 (List.replicate 16 0) 0
    ⟨GpsFixType.GPS_NO_FIX, 0, 11, 22, 33, 4, 5, 6, 0, 0, ⟨false, true, true, true⟩⟩
    ⟨0, 0⟩ (Or.inl rfl) (by decide) (by decide) (by decide) (by decide)
    (by decide) (by decide) (by decide)
  rw [h.2.1]
  decide

set_option maxRecDepth 10000 in
/-- C7 counterexample: a checksum-valid RMC sentence whose speed field
decodes to 70000 commits ground speed 32400, not
70000 * 5144 / 1000 = 360080: the intermediate product is kept modulo
2^32 and the committed field is a 16-bit quantity, so the stated formula
only holds when the result fits in 16 bits. -/
theorem C7_counterexample :
    (runNMEA rmcBigBytes e0gps).2.stats.packetCount = 1 ∧
    (runNMEA rmcBigBytes e0gps).2.sol.groundSpeed = 32400 ∧
    grabPure [55, 48, 48, 48, 48] 1 * 5144 / 1000 = 360080 := by
  refine ⟨by decide, by decide, by decide⟩

/-- C7 (amended): for every well-formed RMC sentence with a correct
checksum, the parser never reports frame-ready (every per-byte result is
`false`), yet the sentence is accepted: ground speed is committed as
(decoded speed · 5144 mod 2^32) / 1000 truncated to 16 bits, ground
course as the decoded course field truncated to 16 bits, and the packet
counter increments.  For speed values whose conversion fits in 16 bits —
such as the decoded value 1000, yielding 5144 cm/s — this agrees with the
claimed truncating formula (decoded · 5144 / 1000). -/
theorem C7_rmc (idf f1 f2 f3 f4 f5 f6 spd crs : List Nat)
    (rest : List (List Nat)) (c1 c2 : Nat)
    (m : GpsDataNmea) (p0 o0 q0 : Nat) (s : List Nat) (fr : Nat)
    (sol : GpsSolution) (stats : GpsStats)
    (hid : idf = gprmcId ∨ idf = gnrmcId)
    (hfs : ∀ f ∈ idf :: f1 :: f2 :: f3 :: f4 :: f5 :: f6 :: spd :: crs :: rest,
      FieldOK f)
    (hrest : rest.length ≤ 245)
    (h1 : HexChar c1) (h2 : HexChar c2) (hs : s.length = 16)
    (hsum : hexPairVal c1 c2 =
      parityOf (idf :: f1 :: f2 :: f3 :: f4 :: f5 :: f6 :: spd :: crs :: rest)) :
    (runNMEA (sentenceBytes (idf :: f1 :: f2 :: f3 :: f4 :: f5 :: f6 :: spd :: crs :: rest) c1 c2)
        ⟨⟨m, p0, o0, q0, s, false, fr⟩, sol, stats⟩).1 =
      List.replicate
        ((sentenceBytes (idf :: f1 :: f2 :: f3 :: f4 :: f5 :: f6 :: spd :: crs :: rest) c1 c2).length)
        false ∧
    (runNMEA (sentenceBytes (idf :: f1 :: f2 :: f3 :: f4 :: f5 :: f6 :: spd :: crs :: rest) c1 c2)
        ⟨⟨m, p0, o0, q0, s, false, fr⟩, sol, stats⟩).2.sol =
      { sol with
          groundSpeed := ((grabPure spd 1 * 5144) % 4294967296 / 1000) % 65536
          groundCourse := grabPure crs 1 % 65536 } ∧
    (runNMEA (sentenceBytes (idf :: f1 :: f2 :: f3 :: f4 :: f5 :: f6 :: spd :: crs :: rest) c1 c2)
        ⟨⟨m, p0, o0, q0, s, false, fr⟩, sol, stats⟩).2.stats =
      ⟨stats.packetCount + 1, stats.errors⟩ := by
  have hidf : identifyFramePure idf = 2 := by
    rcases hid with rfl | rfl <;> decide
  obtain ⟨sfin, hrun⟩ := runNMEA_sentence
    (idf :: f1 :: f2 :: f3 :: f4 :: f5 :: f6 :: spd :: crs :: rest) c1 c2
    m p0 o0 q0 s fr sol stats (by simp) hfs (hexchar_plain h1) (hexchar_plain h2) hs
  have hfold := foldFields_rmc idf f1 f2 f3 f4 f5 f6 spd crs rest fr m hidf hrest
  have hfr : (foldFields (idf :: f1 :: f2 :: f3 :: f4 :: f5 :: f6 :: spd :: crs :: rest)
      0 fr m).2.1 = 2 := by rw [hfold]
  have hmsg : (foldFields (idf :: f1 :: f2 :: f3 :: f4 :: f5 :: f6 :: spd :: crs :: rest)
      0 fr m).2.2 =
      { m with
          speed := ((grabPure spd 1 * 5144) % 4294967296 / 1000) % 65536
          ground_course := grabPure crs 1 % 65536 } := by rw [hfold]
  have hdec : decide (hexPairVal c1 c2 =
      parityOf (idf :: f1 :: f2 :: f3 :: f4 :: f5 :: f6 :: spd :: crs :: rest) ∧
      (foldFields (idf :: f1 :: f2 :: f3 :: f4 :: f5 :: f6 :: spd :: crs :: rest)
        0 fr m).2.1 = 1) = false := by
    simp [hfr]
  refine ⟨?_, ?_, ?_⟩
  · have houts := congrArg Prod.fst hrun
    simp only [] at houts
    rw [houts, hdec]
    have hL : (sentenceBytes (idf :: f1 :: f2 :: f3 :: f4 :: f5 :: f6 :: spd :: crs :: rest) c1 c2).length =
        ((joinFields (idf :: f1 :: f2 :: f3 :: f4 :: f5 :: f6 :: spd :: crs :: rest)).length + 3) + 3 := by
      simp [sentenceBytes]
    rw [hL]
    exact all_false_sentence _
  · have hsol := congrArg (fun x => x.2.sol) hrun
    simp only [] at hsol
    rw [hsol, if_pos hsum, hfr, hmsg]
    simp [commitSol]
  · have hstats := congrArg (fun x => x.2.stats) hrun
    simp only [] at hstats
    rw [hstats, if_pos hsum]

/-- Witness for C7: `GPRMC,,,,,,,100.0,84.4*72` — speed field decodes to
1000, committed ground speed is 5144 cm/s (matching the claimed truncating
conversion on in-range values), ground course 844, packet accepted. -/
theorem C7_witness :
    (runNMEA (sentenceBytes
        [gprmcId, [], [], [], [], [], [], strBytes "100.0", strBytes "84.4"] 55 50)
      ⟨⟨⟨false, 0, 0, 0, 0, 0, 0, 0⟩, 0, 0, 0, List.replicate 16 0, false, 0⟩,
        ⟨GpsFixType.GPS_NO_FIX, 0, 11, 22, 33, 4, 5, 6, 0, 0, ⟨false, true, true, true⟩⟩,
        ⟨0, 0⟩⟩).2.sol =
      ⟨GpsFixType.GPS_NO_FIX, 0, 11, 22, 33, 4, 5, 6, 5144, 844, ⟨false, true, true, true⟩⟩ := by
  have h := C7_rmc gprmcId [] [] [] [] [] [] (strBytes "100.0") (strBytes "84.4") [] 55 50
    ⟨false, 0, 0, 0, 0, 0, 0, 0⟩ 0 0 0 (List.replicate 16 0) 0
    ⟨GpsFixType.GPS_NO_FIX, 0, 11, 22, 33, 4, 5, 6, 0, 0, ⟨false, true, true, true⟩⟩
    ⟨0, 0⟩ (Or.inl rfl) (by decide) (by decide) (by decide) (by decide)
    (by decide) (by decide)
  rw [h.2.1]
  decide

set_option maxRecDepth 10000 in
/-- C3 counterexample, in two parts.  First, a sentence truncated just
AFTER its `*` checksum marker (`$A*`) followed by a complete valid
sentence makes the parser reject the valid sentence (error counter 1,
packet counter 0), whereas the valid sentence alone is accepted — the `$`
handler does not reset the checksum-section flag, so resynchronization
fails for cuts after `*`.  Second, even a prefix cut before any `*`
(`$GPGGA,,,,,,,,25,`) corrupts the commit of a following checksum-valid
GGA sentence that does not populate every committed field: the
eight-field sentence `$GPGGA,,,,,,1,8*73` commits the prefix's leftover
pending HDOP 250 instead of the clean parse's 0 — so resynchronization of
the committed fields also requires the second sentence to populate every
field the commit reads. -/
theorem C3_counterexample :
    (runNMEA (truncatedStarPrefix ++ tinyValidBytes) e0gps).2.stats = ⟨0, 1⟩ ∧
    (runNMEA tinyValidBytes e0gps).2.stats = ⟨1, 0⟩ ∧
    (runNMEA ([36, 71, 80, 71, 71, 65, 44, 44, 44, 44, 44, 44, 44, 44, 50, 53, 44] ++
        sentenceBytes [gpggaId, [], [], [], [], [], [49], [56]] 55 51) e0gps).2.sol.hdop = 250 ∧
    (runNMEA (sentenceBytes [gpggaId, [], [], [], [], [], [49], [56]] 55 51) e0gps).2.sol.hdop = 0 ∧
    (runNMEA ([36, 71, 80, 71, 71, 65, 44, 44, 44, 44, 44, 44, 44, 44, 50, 53, 44] ++
        sentenceBytes [gpggaId, [], [], [], [], [], [49], [56]] 55 51) e0gps).2.stats = ⟨1, 0⟩ := by
  refine ⟨by decide, by decide, by decide, by decide, by decide⟩

/-- C3 (amended): for a truncated sentence prefix that is cut BEFORE its
`*` checksum marker (no `*`, CR or LF among its bytes), followed by a
complete well-formed ten-field GGA sentence — one that populates every
field the commit reads — the parser handles the sentence exactly as it
would with no preceding prefix: the per-byte outputs after the prefix,
the resulting navigation solution, and the resulting statistics all
coincide with the clean parse from the same starting state.  (The
counterexample shows both restrictions are necessary: resynchronization
fails for prefixes cut after `*`, and a second sentence that leaves some
committed field unpopulated inherits leftover pending state deposited by
the prefix.) -/
theorem C3_resync (pre : List Nat)
    (idf t lat ns lon ew fixc sat hdp alt : List Nat)
    (rest : List (List Nat)) (c1 c2 : Nat)
    (m : GpsDataNmea) (p0 o0 q0 : Nat) (s : List Nat) (fr : Nat)
    (sol : GpsSolution) (stats : GpsStats)
    (hpre : ∀ c ∈ pre, c ≠ 42 ∧ c ≠ 13 ∧ c ≠ 10)
    (hid : idf = gpggaId ∨ idf = gnggaId)
    (hfs : ∀ f ∈ idf :: t :: lat :: ns :: lon :: ew :: fixc :: sat :: hdp :: alt :: rest,
      FieldOK f)
    (hrest : rest.length ≤ 245)
    (h1 : HexChar c1) (h2 : HexChar c2) (hs : s.length = 16) :
    (runNMEA (pre ++ sentenceBytes (idf :: t :: lat :: ns :: lon :: ew :: fixc :: sat :: hdp :: alt :: rest) c1 c2)
        ⟨⟨m, p0, o0, q0, s, false, fr⟩, sol, stats⟩).1 =
      List.replicate pre.length false ++
        (runNMEA (sentenceBytes (idf :: t :: lat :: ns :: lon :: ew :: fixc :: sat :: hdp :: alt :: rest) c1 c2)
          ⟨⟨m, p0, o0, q0, s, false, fr⟩, sol, stats⟩).1 ∧
    (runNMEA (pre ++ sentenceBytes (idf :: t :: lat :: ns :: lon :: ew :: fixc :: sat :: hdp :: alt :: rest) c1 c2)
        ⟨⟨m, p0, o0, q0, s, false, fr⟩, sol, stats⟩).2.sol =
      (runNMEA (sentenceBytes (idf :: t :: lat :: ns :: lon :: ew :: fixc :: sat :: hdp :: alt :: rest) c1 c2)
        ⟨⟨m, p0, o0, q0, s, false, fr⟩, sol, stats⟩).2.sol ∧
    (runNMEA (pre ++ sentenceBytes (idf :: t :: lat :: ns :: lon :: ew :: fixc :: sat :: hdp :: alt :: rest) c1 c2)
        ⟨⟨m, p0, o0, q0, s, false, fr⟩, sol, stats⟩).2.stats =
      (runNMEA (sentenceBytes (idf :: t :: lat :: ns :: lon :: ew :: fixc :: sat :: hdp :: alt :: rest) c1 c2)
        ⟨⟨m, p0, o0, q0, s, false, fr⟩, sol, stats⟩).2.stats := by
  have hidf : identifyFramePure idf = 1 := by
    rcases hid with rfl | rfl <;> decide
  rw [runNMEA_append]
  obtain ⟨hob, hosol, hostats, hock, holen⟩ := runNMEA_prefix pre
    ⟨⟨m, p0, o0, q0, s, false, fr⟩, sol, stats⟩ hpre rfl
  rcases he1 : (runNMEA pre ⟨⟨m, p0, o0, q0, s, false, fr⟩, sol, stats⟩).2 with
    ⟨⟨m1, p1, o1, q1, s1, ck1, fr1⟩, sol1, stats1⟩
  rw [he1] at hosol hostats hock holen
  have hsol1 : sol1 = sol := hosol
  have hstats1 : stats1 = stats := hostats
  have hck1 : ck1 = false := hock
  have hs1 : s1.length = 16 := by
    have : s1.length = s.length := holen
    omega
  rw [hsol1, hstats1, hck1]
  obtain ⟨sfin1, hrun1⟩ := runNMEA_sentence
    (idf :: t :: lat :: ns :: lon :: ew :: fixc :: sat :: hdp :: alt :: rest) c1 c2
    m1 p1 o1 q1 s1 fr1 sol stats (by simp) hfs (hexchar_plain h1) (hexchar_plain h2) hs1
  obtain ⟨sfin2, hrun2⟩ := runNMEA_sentence
    (idf :: t :: lat :: ns :: lon :: ew :: fixc :: sat :: hdp :: alt :: rest) c1 c2
    m p0 o0 q0 s fr sol stats (by simp) hfs (hexchar_plain h1) (hexchar_plain h2) hs
  have hfold1 := foldFields_gga idf t lat ns lon ew fixc sat hdp alt rest fr1 m1 hidf hrest
  have hfold2 := foldFields_gga idf t lat ns lon ew fixc sat hdp alt rest fr m hidf hrest
  have hfr1 : (foldFields (idf :: t :: lat :: ns :: lon :: ew :: fixc :: sat :: hdp :: alt :: rest)
      0 fr1 m1).2.1 = 1 := by rw [hfold1]
  have hfr2 : (foldFields (idf :: t :: lat :: ns :: lon :: ew :: fixc :: sat :: hdp :: alt :: rest)
      0 fr m).2.1 = 1 := by rw [hfold2]
  have hmsg1 : (foldFields (idf :: t :: lat :: ns :: lon :: ew :: fixc :: sat :: hdp :: alt :: rest)
      0 fr1 m1).2.2 =
      { m1 with
          latitude := if ns.headD 0 = 83 then wrapI32 (-(toInt32 (coordPure lat)))
                      else toInt32 (coordPure lat)
          longitude := if ew.headD 0 = 87 then wrapI32 (-(toInt32 (coordPure lon)))
                       else toInt32 (coordPure lon)
          fix := decide (48 < fixc.headD 0)
          numSat := grabPure sat 0 % 256
          hdop := (grabPure hdp 1 * 10) % 65536
          altitude := (grabPure alt 1 * 10) % 65536 } := by rw [hfold1]
  have hmsg2 : (foldFields (idf :: t :: lat :: ns :: lon :: ew :: fixc :: sat :: hdp :: alt :: rest)
      0 fr m).2.2 =
      { m with
          latitude := if ns.headD 0 = 83 then wrapI32 (-(toInt32 (coordPure lat)))
                      else toInt32 (coordPure lat)
          longitude := if ew.headD 0 = 87 then wrapI32 (-(toInt32 (coordPure lon)))
                       else toInt32 (coordPure lon)
          fix := decide (48 < fixc.headD 0)
          numSat := grabPure sat 0 % 256
          hdop := (grabPure hdp 1 * 10) % 65536
          altitude := (grabPure alt 1 * 10) % 65536 } := by rw [hfold2]
  refine ⟨?_, ?_, ?_⟩
  · have h1' := congrArg Prod.fst hrun1
    have h2' := congrArg Prod.fst hrun2
    simp only [] at h1' h2'
    rw [h1', h2', hob, hfr1, hfr2]
  · have h1' := congrArg (fun x => x.2.sol) hrun1
    have h2' := congrArg (fun x => x.2.sol) hrun2
    simp only [] at h1' h2'
    rw [h1', h2', hfr1, hfr2, hmsg1, hmsg2]
    by_cases hc : hexPairVal c1 c2 =
        parityOf (idf :: t :: lat :: ns :: lon :: ew :: fixc :: sat :: hdp :: alt :: rest)
    · rw [if_pos hc, if_pos hc]
      simp [commitSol]
    · rw [if_neg hc, if_neg hc]
  · have h1' := congrArg (fun x => x.2.stats) hrun1
    have h2' := congrArg (fun x => x.2.stats) hrun2
    simp only [] at h1' h2'
    rw [h1', h2']

/-- Witness for C3: the prefix `$GPGGA,1` (cut mid-sentence, before any
`*`) followed by the full C1 witness sentence parses the latter exactly as
the clean run does. -/
theorem C3_witness :
    (runNMEA ([36, 71, 80, 71, 71, 65, 44, 49] ++ sentenceBytes
        [gpggaId, [], strBytes "4807.038", strBytes "N", strBytes "01131.000",
         strBytes "E", strBytes "1", strBytes "08", strBytes "0.9", strBytes "545.4"] 55 51)
      ⟨⟨⟨false, 0, 0, 0, 0, 0, 0, 0⟩, 0, 0, 0, List.replicate 16 0, false, 0⟩,
        ⟨GpsFixType.GPS_NO_FIX, 0, 0, 0, 0, 0, 0, 0, 0, 0, ⟨false, true, true, true⟩⟩,
        ⟨0, 0⟩⟩).2.sol =
      (runNMEA (sentenceBytes
        [gpggaId, [], strBytes "4807.038", strBytes "N", strBytes "01131.000",
         strBytes "E", strBytes "1", strBytes "08", strBytes "0.9", strBytes "545.4"] 55 51)
      ⟨⟨⟨false, 0, 0, 0, 0, 0, 0, 0⟩, 0, 0, 0, List.replicate 16 0, false, 0⟩,
        ⟨GpsFixType.GPS_NO_FIX, 0, 0, 0, 0, 0, 0, 0, 0, 0, ⟨false, true, true, true⟩⟩,
        ⟨0, 0⟩⟩).2.sol := by
  have h := C3_resync [36, 71, 80, 71, 71, 65, 44, 49] gpggaId [] (strBytes "4807.038")
    (strBytes "N") (strBytes "01131.000") (strBytes "E") (strBytes "1") (strBytes "08")
    (strBytes "0.9") (strBytes "545.4") [] 55 51
    ⟨false, 0, 0, 0, 0, 0, 0, 0⟩ 0 0 0 (List.replicate 16 0) 0
    ⟨GpsFixType.GPS_NO_FIX, 0, 0, 0, 0, 0, 0, 0, 0, 0, ⟨false, true, true, true⟩⟩
    ⟨0, 0⟩ (by decide) (Or.inl rfl) (by decide) (by decide) (by decide) (by decide)
    (by decide)
  exact h.2.1
